import Mathlib

/-!
Dimension Door flag: the per-player portal state machine.

A shallow embedding of `dimensionDoorFlag.cpp`.

Conventions of the embedding.

* C++ `float` and `double` values are idealised as exact rationals `ℚ`; rounding,
  infinities and NaN are outside the model (so `x / 0 = 0` as usual in Lean).
  The one place where the program can produce a non-finite value from finite
  ones is the quotient of source line 221; the definitions on `Flt`, `Vec3F`
  and `PortalF` follow that value through the launch and the lock, and
  `shotFiredF_toF` shows that they agree with the rational ones whenever the
  divisor is not zero.
* Every function of the game server that the plugin calls to *read* something
  (`bz_getCurrentTime`, the `bz_getBZDB...` getters, `bz_getPlayerByIndex`,
  `bz_getPlayerTeam`, `bz_isWithinWorldBoundaries`) and the `libm` functions
  `cos` and `sin` are fields of the `Host` record.  One `Host` value is the
  server as seen during one call of a handler: every read made during that
  call returns the value stored in it.
* Every function of the game server that the plugin calls to *do* something is
  a constructor of `HostCall`; a handler returns the list of the calls it
  made, in program order.
* `std::map<int, Portal*>` is a function from keys to optional entries; an entry
  is an optional `Portal` (`none` is the null pointer).
-/

namespace DimensionDoor

/-- Array `float[3]`, read as a point or a vector. -/
structure Vec3 where
  x : ℚ
  y : ℚ
  z : ℚ
deriving DecidableEq

/-- Record `bz_PlayerUpdateState`, the fields the plugin reads. -/
structure PlayerState where
  pos : Vec3
  rotation : ℚ
  velocity : Vec3
deriving DecidableEq

/-- Record `bz_BasePlayerRecord`, the fields the plugin reads. -/
structure PlayerRecord where
  currentFlag : String
  lastKnownState : PlayerState
deriving DecidableEq

/-- Class `Portal` (source lines 30-56). -/
structure Portal where
  active : Bool
  origin : Vec3
  velocity : Vec3
  initialTime : ℚ
  lockedPos : Vec3
  lockedRot : ℚ
  spawned : Bool
  locked : Bool
  lockTime : ℚ
deriving DecidableEq

/-- The game server as one handler call reads it.  `BZ_SERVER` is the constant of
`bzfsAPI.h`; `freshMemory` holds the indeterminate contents of a `Portal` that
`new Portal()` has just allocated. -/
structure Host where
  bz_getCurrentTime : ℚ
  bz_getBZDBInt : String → ℤ
  bz_getBZDBDouble : String → ℚ
  bz_getBZDBBool : String → Bool
  bz_getPlayerByIndex : ℤ → Option PlayerRecord
  bz_getPlayerTeam : ℤ → ℤ
  bz_isWithinWorldBoundaries : Vec3 → Bool
  BZ_SERVER : ℤ
  cos : ℚ → ℚ
  sin : ℚ → ℚ
  freshMemory : Portal

/-- The same server read at another time. -/
def Host.atTime (h : Host) (t : ℚ) : Host :=
  { h with bz_getCurrentTime := t }

/-- Calls from the plugin into the game server that have an effect there. -/
inductive HostCall where
  | bz_fireServerShot (shotType : String) (pos : Vec3) (vel : Vec3) (team : ℤ)
  | bz_sendTextMessage (sender : ℤ) (receiver : ℤ) (message : String)
  | bz_killPlayer (playerID : ℤ) (spawnOnBase : Bool) (killerID : ℤ) (flagID : String)
  | bz_incrementPlayerLosses (playerID : ℤ) (increment : ℤ)
  | playerAlive (playerID : ℤ)
  | bz_givePlayerFlag (playerID : ℤ) (flagType : String) (force : Bool)
deriving DecidableEq

/-- Whether a call is a projectile launch. -/
def HostCall.isFireServerShot : HostCall → Bool
  | .bz_fireServerShot _ _ _ _ => true
  | _ => false

/-- Whether a call eliminates a player. -/
def HostCall.isKillPlayer : HostCall → Bool
  | .bz_killPlayer _ _ _ _ => true
  | _ => false

/-- Constructor `Portal::Portal()` with the default member initialisers of the
class: `active = false`, `spawned = true`, `locked = false`; the other members
keep whatever the allocation held. -/
def Portal.new (memory : Portal) : Portal :=
  { memory with active := false, spawned := true, locked := false }

/-- Method `Portal::init` (source lines 60-70). -/
def Portal.init (h : Host) (pos vel : Vec3) (p : Portal) : Portal :=
  { p with
    active := true
    origin := ⟨pos.x, pos.y, pos.z⟩
    velocity := ⟨vel.x, vel.y, vel.z⟩
    initialTime := h.bz_getCurrentTime }

/-- Method `Portal::clear` (source lines 72-83). -/
def Portal.clear (p : Portal) : Portal :=
  { p with
    active := false
    spawned := true
    locked := false
    origin := ⟨0, 0, 0⟩
    velocity := ⟨0, 0, 0⟩ }

/-- Method `Portal::isActive` (source line 108). -/
def Portal.isActive (p : Portal) : Bool := p.active

/-- Method `Portal::calculatePosition` (source lines 115-125). -/
def Portal.calculatePosition (h : Host) (p : Portal) : Vec3 :=
  let elapsedTime : ℚ := h.bz_getCurrentTime - p.initialTime
  { x := p.origin.x + p.velocity.x * elapsedTime * (h.bz_getBZDBInt "_shotSpeed" : ℚ)
    y := p.origin.y + p.velocity.y * elapsedTime * (h.bz_getBZDBInt "_shotSpeed" : ℚ)
    z := p.origin.z + p.velocity.z * elapsedTime * (h.bz_getBZDBInt "_shotSpeed" : ℚ) }

/-- Method `Portal::isExpired` (source lines 127-135). -/
def Portal.isExpired (h : Host) (p : Portal) : Bool :=
  if (p.calculatePosition h).z ≤ 0 then
    true
  else if (h.bz_getCurrentTime - p.initialTime) * (h.bz_getBZDBInt "_shotSpeed" : ℚ)
      < (h.bz_getBZDBInt "_shotRange" : ℚ) then
    false
  else
    true

/-- Method `Portal::lock` (source lines 85-97).  The player record is used without
a null check: `none` is the dereference of a null `playerRecord`. -/
def Portal.lock (h : Host) (playerID : ℤ) (p : Portal) : Option Portal :=
  match h.bz_getPlayerByIndex playerID with
  | none => none
  | some playerRecord =>
    let pos := p.calculatePosition h
    some { p with
      lockedPos := ⟨pos.x, pos.y, pos.z⟩
      lockedRot := playerRecord.lastKnownState.rotation
      locked := true
      spawned := false
      lockTime := h.bz_getCurrentTime }

/-- Method `Portal::getLockedPos` (source lines 99-102). -/
def Portal.getLockedPos (p : Portal) : Vec3 := p.lockedPos

/-- Method `Portal::getLockedRot` (source lines 103-106). -/
def Portal.getLockedRot (p : Portal) : ℚ := p.lockedRot

/-- Member `portalMap` of the plugin: `std::map<int, Portal*>`. -/
def PortalMap : Type := ℤ → Option (Option Portal)

/-- Assignment through `operator[]`, and in-place mutation of the pointee. -/
def PortalMap.set (m : PortalMap) (k : ℤ) (v : Option Portal) : PortalMap :=
  fun i => if i = k then some v else m i

/-- Member `std::map::erase` by key. -/
def PortalMap.erase (m : PortalMap) (k : ℤ) : PortalMap :=
  fun i => if i = k then none else m i

/-- Read through `std::map::operator[]`: a key that is missing is first inserted
with a value-initialised (null) pointer. -/
def PortalMap.index (m : PortalMap) (k : ℤ) : PortalMap × Option Portal :=
  match m k with
  | some v => (m, v)
  | none => (PortalMap.set m k none, none)

/-- The map of a plugin that has seen no event. -/
def PortalMap.empty : PortalMap := fun _ => none

/-- Event payloads the plugin handles; `other` is every other event type. -/
inductive EventData where
  | bz_eShotFiredEvent (playerID : ℤ)
  | bz_eGetPlayerSpawnPosEvent (playerID : ℤ) (pos : Vec3) (rot : ℚ)
  | bz_ePlayerUpdateEvent (playerID : ℤ)
  | bz_ePlayerJoinEvent (playerID : ℤ)
  | bz_ePlayerPartEvent (playerID : ℤ)
  | other
deriving DecidableEq

/-- What the body of the shot-fired handler does to the Portal it works on. -/
inductive ShotResult where
  | done (p : Portal) (calls : List HostCall)
  | nullDereference (p : Portal) (calls : List HostCall)
deriving DecidableEq

/-- Body of the `bz_eShotFiredEvent` case once the player record is known to hold
the flag (source lines 189-259), on the Portal `portalMap[data->playerID]` points
to.  The quotient of line 221 is the rational one: it is the quotient the
program computes when `bz_getBZDBDouble("_shotSpeed")` is not zero; for a zero
divisor see `shotFiredF`. -/
def shotFired (h : Host) (playerID : ℤ) (playerRecord : PlayerRecord) (p : Portal) :
    ShotResult :=
  -- If an active portal is expired, clear it from the records.
  let p1 : Portal := if p.isActive then (if p.isExpired h then p.clear else p) else p
  if p1.isActive = false then
    let st := playerRecord.lastKnownState
    let pos : Vec3 :=
      { x := st.pos.x + h.cos st.rotation * 4
        y := st.pos.y + h.sin st.rotation * 4
        z := st.pos.z + h.bz_getBZDBDouble "_muzzleHeight" }
    let offset0 : ℚ := -(h.sin st.rotation) * h.bz_getBZDBDouble "_dimensionDoorWidth"
    let offset1 : ℚ := h.cos st.rotation * h.bz_getBZDBDouble "_dimensionDoorWidth"
    let vel : Vec3 :=
      { x := h.cos st.rotation * h.bz_getBZDBDouble "_dimensionDoorAdVel"
        y := h.sin st.rotation * h.bz_getBZDBDouble "_dimensionDoorAdVel"
        z := if h.bz_getBZDBBool "_dimensionDoorVerticalVelocity" then
               st.velocity.z / h.bz_getBZDBDouble "_shotSpeed"
             else 0 }
    let pos1 : Vec3 := { x := pos.x + offset0, y := pos.y + offset1, z := pos.z }
    let pos2 : Vec3 := { x := pos.x - offset0, y := pos.y - offset1, z := pos.z }
    .done (p1.init h pos vel)
      [ .bz_fireServerShot "PZ" pos1 vel (h.bz_getPlayerTeam playerID),
        .bz_fireServerShot "PZ" pos2 vel (h.bz_getPlayerTeam playerID) ]
  else
    let pos := p1.calculatePosition h
    let spawnPos : Vec3 := { x := pos.x, y := pos.y, z := pos.z }
    if !h.bz_isWithinWorldBoundaries spawnPos then
      .done p1.clear
        [ .bz_sendTextMessage h.BZ_SERVER playerID "You cannot teleport outside the map." ]
    else
      match p1.lock h playerID with
      | none =>
        .nullDereference p1
          [ .bz_killPlayer playerID false h.BZ_SERVER "DD",
            .bz_incrementPlayerLosses playerID (-1) ]
      | some p2 =>
        .done p2
          [ .bz_killPlayer playerID false h.BZ_SERVER "DD",
            .bz_incrementPlayerLosses playerID (-1),
            .playerAlive playerID ]

/-- Body of the `bz_eGetPlayerSpawnPosEvent` case (source lines 268-277) on the
Portal of the player: the Portal after it, and the position and rotation the
event data hold after it. -/
def getPlayerSpawnPos (pos : Vec3) (rot : ℚ) (p : Portal) : Portal × Vec3 × ℚ :=
  if p.isActive && !p.spawned then
    let spawnPos := p.getLockedPos
    ({ p with spawned := true }, ⟨spawnPos.x, spawnPos.y, spawnPos.z⟩, p.getLockedRot)
  else
    (p, pos, rot)

/-- Body of the `bz_ePlayerUpdateEvent` case (source lines 283-292) on the Portal of
the player. -/
def playerUpdate (h : Host) (playerID : ℤ) (p : Portal) : Portal × List HostCall :=
  if p.locked && p.spawned then
    if h.bz_getCurrentTime - p.lockTime > h.bz_getBZDBDouble "_dimensionDoorCooldownTime" then
      (p.clear,
        [ .bz_givePlayerFlag playerID "DD" true,
          .bz_sendTextMessage h.BZ_SERVER playerID
            "If you have teleported inside a building, press [delete] to self-destruct." ])
    else
      (p, [])
  else
    (p, [])

/-- How a call of `Event` ends: it returns, leaving the map, the (possibly
overwritten) event data and the calls it made; or it dereferences a null
pointer, with the map and the calls as they stand at that point. -/
inductive Outcome where
  | ok (portalMap : PortalMap) (data : EventData) (calls : List HostCall)
  | nullDereference (portalMap : PortalMap) (calls : List HostCall)

/-- Method `DimensionDoorFlag::Event` (source lines 178-307). -/
def Event (h : Host) (eventData : EventData) (portalMap : PortalMap) : Outcome :=
  match eventData with
  | .bz_eShotFiredEvent playerID =>
    match h.bz_getPlayerByIndex playerID with
    | none => .ok portalMap eventData []
    | some playerRecord =>
      if playerRecord.currentFlag = "Dimension Door (+DD)" then
        match PortalMap.index portalMap playerID with
        | (m, none) => .nullDereference m []
        | (m, some p) =>
          match shotFired h playerID playerRecord p with
          | .done p1 calls => .ok (PortalMap.set m playerID (some p1)) eventData calls
          | .nullDereference p1 calls =>
            .nullDereference (PortalMap.set m playerID (some p1)) calls
      else
        .ok portalMap eventData []
  | .bz_eGetPlayerSpawnPosEvent playerID pos rot =>
    match PortalMap.index portalMap playerID with
    | (m, none) => .nullDereference m []
    | (m, some p) =>
      let r := getPlayerSpawnPos pos rot p
      .ok (PortalMap.set m playerID (some r.1))
        (.bz_eGetPlayerSpawnPosEvent playerID r.2.1 r.2.2) []
  | .bz_ePlayerUpdateEvent playerID =>
    match PortalMap.index portalMap playerID with
    | (m, none) => .nullDereference m []
    | (m, some p) =>
      let r := playerUpdate h playerID p
      .ok (PortalMap.set m playerID (some r.1)) eventData r.2
  | .bz_ePlayerJoinEvent playerID =>
    .ok (PortalMap.set portalMap playerID (some (Portal.new h.freshMemory))) eventData []
  | .bz_ePlayerPartEvent playerID =>
    .ok (PortalMap.erase (PortalMap.index portalMap playerID).1 playerID) eventData []
  | .other => .ok portalMap eventData []

/-- The calls an invocation of `Event` made. -/
def Outcome.calls : Outcome → List HostCall
  | .ok _ _ calls => calls
  | .nullDereference _ calls => calls

/-- The map an invocation of `Event` leaves. -/
def Outcome.portalMap : Outcome → PortalMap
  | .ok m _ _ => m
  | .nullDereference m _ => m

/-! ## Concrete servers, players and Portals used to exercise the theorems -/

/-- A tank standing at `(10, 20, 0)` with heading `0`, rising at `19` units a
second and holding the Dimension Door flag. -/
def demoRecord : PlayerRecord :=
  { currentFlag := "Dimension Door (+DD)"
    lastKnownState := { pos := ⟨10, 20, 0⟩, rotation := 0, velocity := ⟨0, 0, 19⟩ } }

/-- A server at time `1/2` with shot speed `100`, shot range `350`, muzzle height
`157/100`, and the defaults the plugin registers for its own variables; player
`7` is `demoRecord`, the world is the square of half-width `400`. -/
def demoHost : Host :=
  { bz_getCurrentTime := 1 / 2
    bz_getBZDBInt := fun name =>
      if name = "_shotSpeed" then 100 else if name = "_shotRange" then 350 else 0
    bz_getBZDBDouble := fun name =>
      if name = "_shotSpeed" then 100
      else if name = "_muzzleHeight" then 157 / 100
      else if name = "_dimensionDoorAdVel" then 4
      else if name = "_dimensionDoorWidth" then 2
      else if name = "_dimensionDoorCooldownTime" then 3 / 10
      else 0
    bz_getBZDBBool := fun name => decide (name = "_dimensionDoorVerticalVelocity")
    bz_getPlayerByIndex := fun i => if i = 7 then some demoRecord else none
    bz_getPlayerTeam := fun _ => 1
    bz_isWithinWorldBoundaries := fun v =>
      decide (-400 ≤ v.x ∧ v.x ≤ 400 ∧ -400 ≤ v.y ∧ v.y ≤ 400)
    BZ_SERVER := -2
    cos := fun r => if r = 0 then 1 else 3 / 5
    sin := fun r => if r = 0 then 0 else 4 / 5
    freshMemory :=
      { active := true, origin := ⟨1, 2, 3⟩, velocity := ⟨4, 5, 6⟩, initialTime := 7
        lockedPos := ⟨8, 9, 10⟩, lockedRot := 11, spawned := false, locked := true
        lockTime := 12 } }

/-- The server `demoHost` with a negative shot speed configured. -/
def reverseHost : Host :=
  { demoHost with
    bz_getBZDBInt := fun name =>
      if name = "_shotSpeed" then -100 else if name = "_shotRange" then 350 else 0 }

/-- A marker launched at time `0` from `(14, 20, 157/100)` along the x axis,
sinking slowly. -/
def flyingPortal : Portal :=
  { active := true, origin := ⟨14, 20, 157 / 100⟩, velocity := ⟨4, 0, -1 / 1000⟩
    initialTime := 0, lockedPos := ⟨0, 0, 0⟩, lockedRot := 0, spawned := true
    locked := false, lockTime := 0 }

/-- A marker launched at time `0` from ground level with an upward velocity. -/
def risingPortal : Portal :=
  { active := true, origin := ⟨14, 20, 0⟩, velocity := ⟨4, 0, 1 / 5⟩
    initialTime := 0, lockedPos := ⟨0, 0, 0⟩, lockedRot := 0, spawned := true
    locked := false, lockTime := 0 }

/-- A marker launched at time `0` from height `5`, moving straight down, which
reaches the ground plane at time `1` on `demoHost`. -/
def sinkingPortal : Portal :=
  { active := true, origin := ⟨14, 20, 5⟩, velocity := ⟨0, 0, -1 / 20⟩
    initialTime := 0, lockedPos := ⟨0, 0, 0⟩, lockedRot := 0, spawned := true
    locked := false, lockTime := 0 }

/-- A marker launched at time `0` from ground level, moving straight down. -/
def groundPortal : Portal :=
  { active := true, origin := ⟨14, 20, 0⟩, velocity := ⟨0, 0, -1 / 20⟩
    initialTime := 0, lockedPos := ⟨0, 0, 0⟩, lockedRot := 0, spawned := true
    locked := false, lockTime := 0 }

/-- The map that holds the Portal `p` for player `7` and nothing else. -/
def demoMap (p : Portal) : PortalMap :=
  PortalMap.set PortalMap.empty 7 (some p)

/-- A Portal locked at time `1/2` whose destination the server has not consumed. -/
def pendingPortal : Portal :=
  { flyingPortal with
    lockedPos := ⟨214, 20, 3 / 2⟩, lockedRot := 1, locked := true, spawned := false
    lockTime := 1 / 2 }

/-- A Portal locked at time `0` whose destination the server has consumed. -/
def cooldownPortal : Portal :=
  { flyingPortal with
    lockedPos := ⟨214, 20, 3 / 2⟩, lockedRot := 1, locked := true, spawned := true
    lockTime := 0 }

/-- The Portal `pendingPortal` once the server has consumed its destination. -/
def cooldownPortalAfterSpawn : Portal :=
  { pendingPortal with spawned := true }

/-- A Portal as `clear` leaves it. -/
def idlePortal : Portal :=
  { active := false, origin := ⟨0, 0, 0⟩, velocity := ⟨0, 0, 0⟩
    initialTime := 0, lockedPos := ⟨0, 0, 0⟩, lockedRot := 0, spawned := true
    locked := false, lockTime := 0 }

/-! ## The launch geometry, event sequences and the vocabulary of the states -/

/-- Local variable `pos` of the launch branch (source lines 205-207): the base
position of the two shots. -/
def launchPos (h : Host) (playerRecord : PlayerRecord) : Vec3 :=
  { x := playerRecord.lastKnownState.pos.x + h.cos playerRecord.lastKnownState.rotation * 4
    y := playerRecord.lastKnownState.pos.y + h.sin playerRecord.lastKnownState.rotation * 4
    z := playerRecord.lastKnownState.pos.z + h.bz_getBZDBDouble "_muzzleHeight" }

/-- Local variable `offset` of the launch branch (source lines 210-211), with a
third component `0`: the offset of the shots from the base position. -/
def launchOffset (h : Host) (playerRecord : PlayerRecord) : Vec3 :=
  { x := -(h.sin playerRecord.lastKnownState.rotation)
          * h.bz_getBZDBDouble "_dimensionDoorWidth"
    y := h.cos playerRecord.lastKnownState.rotation * h.bz_getBZDBDouble "_dimensionDoorWidth"
    z := 0 }

/-- Local variable `vel` of the launch branch (source lines 214-221). -/
def launchVel (h : Host) (playerRecord : PlayerRecord) : Vec3 :=
  { x := h.cos playerRecord.lastKnownState.rotation * h.bz_getBZDBDouble "_dimensionDoorAdVel"
    y := h.sin playerRecord.lastKnownState.rotation * h.bz_getBZDBDouble "_dimensionDoorAdVel"
    z := if h.bz_getBZDBBool "_dimensionDoorVerticalVelocity" then
           playerRecord.lastKnownState.velocity.z / h.bz_getBZDBDouble "_shotSpeed"
         else 0 }

/-- The two `bz_fireServerShot` calls of the launch branch (source lines 223-233). -/
def launchCalls (h : Host) (playerID : ℤ) (playerRecord : PlayerRecord) : List HostCall :=
  [ .bz_fireServerShot "PZ"
      { x := (launchPos h playerRecord).x + (launchOffset h playerRecord).x
        y := (launchPos h playerRecord).y + (launchOffset h playerRecord).y
        z := (launchPos h playerRecord).z }
      (launchVel h playerRecord) (h.bz_getPlayerTeam playerID),
    .bz_fireServerShot "PZ"
      { x := (launchPos h playerRecord).x - (launchOffset h playerRecord).x
        y := (launchPos h playerRecord).y - (launchOffset h playerRecord).y
        z := (launchPos h playerRecord).z }
      (launchVel h playerRecord) (h.bz_getPlayerTeam playerID) ]

/-- The player id an event carries. -/
def EventData.playerID : EventData → Option ℤ
  | .bz_eShotFiredEvent k => some k
  | .bz_eGetPlayerSpawnPosEvent k _ _ => some k
  | .bz_ePlayerUpdateEvent k => some k
  | .bz_ePlayerJoinEvent k => some k
  | .bz_ePlayerPartEvent k => some k
  | .other => none

/-- The server hands events to `Event` one at a time, each with the server as it
is at that event, on the map the previous event left.  `none`: some handler
dereferenced a null pointer. -/
def runEvents : List (Host × EventData) → PortalMap → Option PortalMap
  | [], m => some m
  | (h, e) :: rest, m =>
    match Event h e m with
    | .ok m1 _ _ => runEvents rest m1
    | .nullDereference _ _ => none

/-- The players connected after an event, from those connected before it: a
join connects its player, a part disconnects it. -/
def connectedAfter (c : ℤ → Bool) : EventData → ℤ → Bool
  | .bz_ePlayerJoinEvent k => fun i => if i = k then true else c i
  | .bz_ePlayerPartEvent k => fun i => if i = k then false else c i
  | _ => c

/-- The players connected after a sequence of events. -/
def connectedAfterAll (c : ℤ → Bool) : List (Host × EventData) → ℤ → Bool
  | [] => c
  | (_, e) :: rest => connectedAfterAll (connectedAfter c e) rest

/-- The ordering the server promises, for one event: a join comes for a player
who is not connected, every other event that carries a player id for one who
is. -/
def respectsOrderingAt (c : ℤ → Bool) : EventData → Bool
  | .bz_ePlayerJoinEvent k => !c k
  | .bz_eShotFiredEvent k => c k
  | .bz_eGetPlayerSpawnPosEvent k _ _ => c k
  | .bz_ePlayerUpdateEvent k => c k
  | .bz_ePlayerPartEvent k => c k
  | .other => true

/-- The ordering the server promises, for a sequence of events that starts with
the players `c` connected. -/
def respectsOrdering (c : ℤ → Bool) : List (Host × EventData) → Bool
  | [] => true
  | (_, e) :: rest => respectsOrderingAt c e && respectsOrdering (connectedAfter c e) rest

/-- State `Idle` as the claims spell it: `active=false, locked=false, spawned=true`. -/
def Portal.isIdle (p : Portal) : Bool := !p.active && !p.locked && p.spawned

/-- State `Flying`: `active=true, locked=false, spawned=true`. -/
def Portal.isFlying (p : Portal) : Bool := p.active && !p.locked && p.spawned

/-- State `Locked-Pending-Spawn`: `active=true, locked=true, spawned=false`. -/
def Portal.isLockedPendingSpawn (p : Portal) : Bool := p.active && p.locked && !p.spawned

/-- State `Locked-Cooldown`: `active=true, locked=true, spawned=true`. -/
def Portal.isLockedCooldown (p : Portal) : Bool := p.active && p.locked && p.spawned

/-- A Portal as `new Portal()` leaves it in the memory of `demoHost`: idle, with the
trajectory fields holding what the allocation held. -/
def freshPortal : Portal := Portal.new demoHost.freshMemory

/-- A tank like `demoRecord` that holds no flag. -/
def plainRecord : PlayerRecord :=
  { demoRecord with currentFlag := "" }

/-- The server `demoHost` where player `7` holds no flag. -/
def plainHost : Host :=
  { demoHost with bz_getPlayerByIndex := fun i => if i = 7 then some plainRecord else none }

/-- A marker launched at time `0` that has flown `400` units, past the range `350`,
at time `4`. -/
def spentPortal : Portal :=
  { flyingPortal with velocity := ⟨1 / 100, 0, 0⟩ }

/-- A map with two players: `7` with `flyingPortal` and `8` with `pendingPortal`. -/
def twoPlayerMap : PortalMap :=
  PortalMap.set (demoMap flyingPortal) 8 (some pendingPortal)

/-- The registry holds a Portal for exactly the players of `c`: a connected player has
an entry that points to a Portal, any other id has no entry at all. -/
def registryMatches (c : ℤ → Bool) (m : PortalMap) : Prop :=
  ∀ i, (c i = true → ∃ p, m i = some (some p)) ∧ (c i = false → m i = none)

/-- One handler call on the server `h` takes the Portal `p` of player `k` to `q`:
it is left alone, or it is what the shot-fired body, the spawn-position body or
the update body makes of it. -/
def handlerStep (h : Host) (k : ℤ) (p q : Portal) : Prop :=
  q = p ∨
  (∃ playerRecord calls,
    h.bz_getPlayerByIndex k = some playerRecord ∧ shotFired h k playerRecord p = .done q calls) ∨
  (∃ pos rot, q = (getPlayerSpawnPos pos rot p).1) ∨
  q = (playerUpdate h k p).1

/-- A session: player `7` joins and fires (a marker is launched at time `1/2`),
player `8` joins, player `7` fires again at time `1` (the Portal locks), the
server asks where to spawn player `7`, and player `8` parts. -/
def demoSession : List (Host × EventData) :=
  [ (demoHost, .bz_ePlayerJoinEvent 7),
    (demoHost, .bz_eShotFiredEvent 7),
    (demoHost, .bz_ePlayerJoinEvent 8),
    (demoHost.atTime 1, .bz_eShotFiredEvent 7),
    (demoHost.atTime 1, .bz_eGetPlayerSpawnPosEvent 7 ⟨0, 0, 0⟩ 0),
    (demoHost.atTime 1, .bz_ePlayerPartEvent 8) ]

/-- The flags of a Portal fit together: `locked` implies `active`, and
`spawned = false` implies `locked`. -/
def Portal.flagsConsistent (p : Portal) : Prop :=
  (p.locked = true → p.active = true) ∧ (p.spawned = false → p.locked = true)

/-- The Portal of player `7` at the end of `demoSession`: launched at time `1/2` from
`(14, 20, 157/100)`, locked at time `1` at `(214, 20, 1107/100)`, and spawned. -/
def sessionPortal : Portal :=
  { active := true, origin := ⟨14, 20, 157 / 100⟩, velocity := ⟨4, 0, 19 / 100⟩
    initialTime := 1 / 2, lockedPos := ⟨214, 20, 1107 / 100⟩, lockedRot := 0, spawned := true
    locked := true, lockTime := 1 }

/-! ## The vertical component with the non-finite values of a division by zero

The launch branch divides by `bz_getBZDBDouble("_shotSpeed")` without a test
(source line 221).  Over `ℚ` a zero divisor gives `0`; the program stores an
infinity or NaN.  The definitions below follow the same source lines with the
one component that can receive such a value, the vertical one of the velocity
and of the positions computed from it, kept as a `Flt`. -/

/-- A floating-point value, rounding apart: finite, an infinity with its sign, or
NaN. -/
inductive Flt where
  | fin (q : ℚ)
  | inf (negative : Bool)
  | nan
deriving DecidableEq

/-- Quotient `a / b` of two finite values as IEEE 754 defines it: `0 / 0` is NaN and
a non-zero value over zero is an infinity (the zero divisor read as `+0`). -/
def Flt.quot (a b : ℚ) : Flt :=
  if b = 0 then (if a = 0 then .nan else .inf (decide (a < 0))) else .fin (a / b)

/-- Product `x * c` with a finite `c`: NaN stays NaN, an infinity times zero is NaN,
an infinity times a non-zero value is an infinity with the sign of the product. -/
def Flt.mulFin (x : Flt) (c : ℚ) : Flt :=
  match x with
  | .fin a => .fin (a * c)
  | .inf s => if c = 0 then .nan else .inf (xor s (decide (c < 0)))
  | .nan => .nan

/-- Sum `a + x` with a finite `a`: an infinity and NaN absorb it. -/
def Flt.finAdd (a : ℚ) (x : Flt) : Flt :=
  match x with
  | .fin b => .fin (a + b)
  | .inf s => .inf s
  | .nan => .nan

/-- Comparison `x <= 0`; every comparison with NaN is false. -/
def Flt.leZero (x : Flt) : Bool :=
  match x with
  | .fin a => decide (a ≤ 0)
  | .inf s => s
  | .nan => false

/-- Array `float[3]` whose third component may be non-finite. -/
structure Vec3F where
  x : ℚ
  y : ℚ
  z : Flt
deriving DecidableEq

/-- Class `Portal` (source lines 30-56) with the vertical components of `velocity`
and `lockedPos` as `Flt`. -/
structure PortalF where
  active : Bool
  origin : Vec3
  velocity : Vec3F
  initialTime : ℚ
  lockedPos : Vec3F
  lockedRot : ℚ
  spawned : Bool
  locked : Bool
  lockTime : ℚ
deriving DecidableEq

/-- A rational vector as a `Vec3F`. -/
def Vec3.toF (v : Vec3) : Vec3F := { x := v.x, y := v.y, z := .fin v.z }

/-- A Portal with rational fields as a `PortalF`. -/
def Portal.toF (p : Portal) : PortalF :=
  { active := p.active, origin := p.origin, velocity := p.velocity.toF
    initialTime := p.initialTime, lockedPos := p.lockedPos.toF, lockedRot := p.lockedRot
    spawned := p.spawned, locked := p.locked, lockTime := p.lockTime }

/-- The Portal a run of the shot-fired body leaves, if it returns. -/
def ShotResult.portal : ShotResult → Option Portal
  | .done p _ => some p
  | .nullDereference _ _ => none

/-- Constructor `Portal::Portal()` on a `PortalF`. -/
def PortalF.new (memory : PortalF) : PortalF :=
  { memory with active := false, spawned := true, locked := false }

/-- Method `Portal::init` (source lines 60-70) on a `PortalF`. -/
def PortalF.init (h : Host) (pos : Vec3) (vel : Vec3F) (p : PortalF) : PortalF :=
  { p with
    active := true
    origin := ⟨pos.x, pos.y, pos.z⟩
    velocity := ⟨vel.x, vel.y, vel.z⟩
    initialTime := h.bz_getCurrentTime }

/-- Method `Portal::clear` (source lines 72-83) on a `PortalF`. -/
def PortalF.clear (p : PortalF) : PortalF :=
  { p with
    active := false
    spawned := true
    locked := false
    origin := ⟨0, 0, 0⟩
    velocity := ⟨0, 0, .fin 0⟩ }

/-- Method `Portal::calculatePosition` (source lines 115-125) on a `PortalF`: the
third component is `origin[2] + velocity[2]*elapsedTime*shotSpeed`, the products
taken from the left. -/
def PortalF.calculatePosition (h : Host) (p : PortalF) : Vec3F :=
  let elapsedTime : ℚ := h.bz_getCurrentTime - p.initialTime
  { x := p.origin.x + p.velocity.x * elapsedTime * (h.bz_getBZDBInt "_shotSpeed" : ℚ)
    y := p.origin.y + p.velocity.y * elapsedTime * (h.bz_getBZDBInt "_shotSpeed" : ℚ)
    z := Flt.finAdd p.origin.z
          (Flt.mulFin (Flt.mulFin p.velocity.z elapsedTime) (h.bz_getBZDBInt "_shotSpeed" : ℚ)) }

/-- Method `Portal::isExpired` (source lines 127-135) on a `PortalF`. -/
def PortalF.isExpired (h : Host) (p : PortalF) : Bool :=
  if (p.calculatePosition h).z.leZero then
    true
  else if (h.bz_getCurrentTime - p.initialTime) * (h.bz_getBZDBInt "_shotSpeed" : ℚ)
      < (h.bz_getBZDBInt "_shotRange" : ℚ) then
    false
  else
    true

/-- Method `Portal::lock` (source lines 85-97) on a `PortalF`. -/
def PortalF.lock (h : Host) (playerID : ℤ) (p : PortalF) : Option PortalF :=
  match h.bz_getPlayerByIndex playerID with
  | none => none
  | some playerRecord =>
    let pos := p.calculatePosition h
    some { p with
      lockedPos := ⟨pos.x, pos.y, pos.z⟩
      lockedRot := playerRecord.lastKnownState.rotation
      locked := true
      spawned := false
      lockTime := h.bz_getCurrentTime }

/-- Local variable `vel` of the launch branch (source lines 214-221) with the
quotient of line 221 as the program computes it. -/
def launchVelF (h : Host) (playerRecord : PlayerRecord) : Vec3F :=
  { x := h.cos playerRecord.lastKnownState.rotation * h.bz_getBZDBDouble "_dimensionDoorAdVel"
    y := h.sin playerRecord.lastKnownState.rotation * h.bz_getBZDBDouble "_dimensionDoorAdVel"
    z := if h.bz_getBZDBBool "_dimensionDoorVerticalVelocity" then
           Flt.quot playerRecord.lastKnownState.velocity.z (h.bz_getBZDBDouble "_shotSpeed")
         else .fin 0 }

/-- What the body of the `bz_eShotFiredEvent` case (source lines 189-259) does to the
Portal, as `shotFired`, on a `PortalF`; the calls are left out.  `W` is
`bz_isWithinWorldBoundaries` on positions whose third component may be
non-finite; `none` is the null dereference in `lock`. -/
def shotFiredF (W : Vec3F → Bool) (h : Host) (playerID : ℤ) (playerRecord : PlayerRecord)
    (p : PortalF) : Option PortalF :=
  let p1 : PortalF := if p.active then (if p.isExpired h then p.clear else p) else p
  if p1.active = false then
    some (p1.init h (launchPos h playerRecord) (launchVelF h playerRecord))
  else
    let pos := p1.calculatePosition h
    let spawnPos : Vec3F := { x := pos.x, y := pos.y, z := pos.z }
    if !W spawnPos then
      some p1.clear
    else
      p1.lock h playerID

theorem PortalMap.index_of_entry (m : PortalMap) (k : ℤ) (v : Option Portal)
    (hm : m k = some v) : PortalMap.index m k = (m, v) := by
  unfold PortalMap.index
  rw [hm]

theorem PortalMap.set_of_entry (m : PortalMap) (k : ℤ) (v : Option Portal)
    (hm : m k = some v) : PortalMap.set m k v = m := by
  funext i
  unfold PortalMap.set
  by_cases hi : i = k
  · subst hi
    simp [hm]
  · simp [hi]

theorem isExpired_eq_true_iff (h : Host) (p : Portal) :
    p.isExpired h = true ↔
      (p.calculatePosition h).z ≤ 0 ∨
        (h.bz_getBZDBInt "_shotRange" : ℚ)
          ≤ (h.bz_getCurrentTime - p.initialTime) * (h.bz_getBZDBInt "_shotSpeed" : ℚ) := by
  unfold Portal.isExpired
  by_cases hz : (p.calculatePosition h).z ≤ 0
  · simp [hz]
  · by_cases hd : (h.bz_getCurrentTime - p.initialTime) * (h.bz_getBZDBInt "_shotSpeed" : ℚ)
        < (h.bz_getBZDBInt "_shotRange" : ℚ)
    · simp [hz, hd]
    · simp [hz, hd, not_lt.mp hd]

theorem calculatePosition_z (h : Host) (p : Portal) :
    (p.calculatePosition h).z =
      p.origin.z + p.velocity.z * (h.bz_getCurrentTime - p.initialTime)
        * (h.bz_getBZDBInt "_shotSpeed" : ℚ) := rfl

/-! ## The claims -/

/-- C1. `Portal::calculatePosition` returns, on each of the three axes,
`origin + velocity * (now - launchTime) * shotSpeed`, where `now` and `shotSpeed`
are what the server returns when the position is evaluated: for a marker
launched by `init` on a server `h0` and evaluated on a server `h`, the launch
time is the time of `h0` and the shot speed is the one `h` reports, whatever
`h0` reported. -/
theorem calculatePosition_linear (h0 h : Host) (pos vel : Vec3) (p : Portal) :
    p.calculatePosition h =
        { x := p.origin.x + p.velocity.x * (h.bz_getCurrentTime - p.initialTime)
                * (h.bz_getBZDBInt "_shotSpeed" : ℚ)
          y := p.origin.y + p.velocity.y * (h.bz_getCurrentTime - p.initialTime)
                * (h.bz_getBZDBInt "_shotSpeed" : ℚ)
          z := p.origin.z + p.velocity.z * (h.bz_getCurrentTime - p.initialTime)
                * (h.bz_getBZDBInt "_shotSpeed" : ℚ) } ∧
      (p.init h0 pos vel).calculatePosition h =
        { x := pos.x + vel.x * (h.bz_getCurrentTime - h0.bz_getCurrentTime)
                * (h.bz_getBZDBInt "_shotSpeed" : ℚ)
          y := pos.y + vel.y * (h.bz_getCurrentTime - h0.bz_getCurrentTime)
                * (h.bz_getBZDBInt "_shotSpeed" : ℚ)
          z := pos.z + vel.z * (h.bz_getCurrentTime - h0.bz_getCurrentTime)
                * (h.bz_getBZDBInt "_shotSpeed" : ℚ) } := by
  constructor
  · rfl
  · rfl

/-- C2. `Portal::isExpired` returns true if and only if the projected Z coordinate
is at most zero or the elapsed flight distance `(now - launchTime) * shotSpeed`
is at least the configured shot range; in every other case it returns false. -/
theorem isExpired_iff (h : Host) (p : Portal) :
    (p.isExpired h = true ↔
      (p.calculatePosition h).z ≤ 0 ∨
        (h.bz_getCurrentTime - p.initialTime) * (h.bz_getBZDBInt "_shotSpeed" : ℚ)
          ≥ (h.bz_getBZDBInt "_shotRange" : ℚ)) ∧
    (p.isExpired h = false ↔
      ¬ ((p.calculatePosition h).z ≤ 0 ∨
        (h.bz_getCurrentTime - p.initialTime) * (h.bz_getBZDBInt "_shotSpeed" : ℚ)
          ≥ (h.bz_getBZDBInt "_shotRange" : ℚ))) := by
  have key := isExpired_eq_true_iff h p
  refine ⟨key, ?_⟩
  rw [← key]
  simp

/-- C3, as stated, fails.  On `demoHost` (shot speed `100`, range `350`) the
marker `risingPortal`, launched from ground level with upward velocity, is
expired at its launch time `0` and no longer expired at time `1`; on
`reverseHost` (shot speed `-100`) the marker `groundPortal`, which moves down, is
expired at time `0` and no longer expired at time `1`. -/
theorem isExpired_not_monotone :
    (risingPortal.isExpired (demoHost.atTime 0) = true ∧
      risingPortal.isExpired (demoHost.atTime 1) = false) ∧
    (groundPortal.isExpired (reverseHost.atTime 0) = true ∧
      groundPortal.isExpired (reverseHost.atTime 1) = false) := by
  simp [Portal.isExpired, Portal.calculatePosition, Host.atTime, demoHost, reverseHost,
    risingPortal, groundPortal]
  norm_num

/-- C3, amended.  With a non-negative shot speed, and a marker that either has a
non-positive vertical velocity or was launched above the ground plane and is
evaluated no earlier than its launch time, expiry is monotone in time: for
`t ≤ t'`, expired at `t` implies expired at `t'`. -/
theorem isExpired_monotone (h : Host) (p : Portal) (t t' : ℚ)
    (hs : 0 ≤ h.bz_getBZDBInt "_shotSpeed")
    (hv : p.velocity.z ≤ 0 ∨ (0 < p.origin.z ∧ p.initialTime ≤ t))
    (htt : t ≤ t') (he : p.isExpired (h.atTime t) = true) :
    p.isExpired (h.atTime t') = true := by
  rw [isExpired_eq_true_iff] at he ⊢
  rw [calculatePosition_z] at he ⊢
  have hs' : (0 : ℚ) ≤ (h.bz_getBZDBInt "_shotSpeed" : ℚ) := by exact_mod_cast hs
  simp only [Host.atTime] at he ⊢
  have hstep : (t - p.initialTime) * (h.bz_getBZDBInt "_shotSpeed" : ℚ)
      ≤ (t' - p.initialTime) * (h.bz_getBZDBInt "_shotSpeed" : ℚ) :=
    mul_le_mul_of_nonneg_right (by linarith) hs'
  rcases he with hz | hd
  · left
    have hvz : p.velocity.z ≤ 0 := by
      rcases hv with hv | ⟨ho, hl⟩
      · exact hv
      · by_contra hpos
        have hpos' : 0 ≤ p.velocity.z := le_of_lt (not_le.mp hpos)
        have h1 : 0 ≤ (t - p.initialTime) * (h.bz_getBZDBInt "_shotSpeed" : ℚ) :=
          mul_nonneg (by linarith) hs'
        have h2 : 0 ≤ p.velocity.z * ((t - p.initialTime) * (h.bz_getBZDBInt "_shotSpeed" : ℚ)) :=
          mul_nonneg hpos' h1
        linarith [mul_assoc p.velocity.z (t - p.initialTime) (h.bz_getBZDBInt "_shotSpeed" : ℚ)]
    have h3 : p.velocity.z * ((t' - p.initialTime) * (h.bz_getBZDBInt "_shotSpeed" : ℚ))
        ≤ p.velocity.z * ((t - p.initialTime) * (h.bz_getBZDBInt "_shotSpeed" : ℚ)) :=
      mul_le_mul_of_nonpos_left hstep hvz
    linarith [mul_assoc p.velocity.z (t - p.initialTime) (h.bz_getBZDBInt "_shotSpeed" : ℚ),
      mul_assoc p.velocity.z (t' - p.initialTime) (h.bz_getBZDBInt "_shotSpeed" : ℚ)]
  · right
    linarith

/-- Witness of the amended C3: `sinkingPortal` on `demoHost` is expired at time `1`
and hence at time `2`. -/
theorem isExpired_monotone_witness :
    sinkingPortal.isExpired (demoHost.atTime 1) = true ∧
      sinkingPortal.isExpired (demoHost.atTime 2) = true :=
  have he : sinkingPortal.isExpired (demoHost.atTime 1) = true := by
    simp [Portal.isExpired, Portal.calculatePosition, Host.atTime, demoHost, sinkingPortal]
    norm_num
  ⟨he, isExpired_monotone demoHost sinkingPortal 1 2 (by simp [demoHost])
    (Or.inl (by norm_num [sinkingPortal])) (by norm_num) he⟩

/-- C4, as stated, fails when the configured shot speed is negative.  On
`reverseHost` (shot speed `-100`, range `350`) the marker `groundPortal` has
vertical velocity `-1/20 ≤ 0` and projected Z equal to `0` at its launch time `0`,
and it is not expired at the later time `2`. -/
theorem ground_plane_expiry_fails :
    groundPortal.velocity.z ≤ 0 ∧
      (groundPortal.calculatePosition (reverseHost.atTime 0)).z = 0 ∧
      (0 : ℚ) ≤ 2 ∧
      groundPortal.isExpired (reverseHost.atTime 2) = false := by
  simp [Portal.isExpired, Portal.calculatePosition, Host.atTime, demoHost, reverseHost,
    groundPortal]
  norm_num

/-- C4, amended.  With a non-negative shot speed, a marker whose vertical velocity
is non-positive and whose projected Z equals `0` at time `te` is expired at every
time `now ≥ te`. -/
theorem ground_plane_expiry (h : Host) (p : Portal) (te now : ℚ)
    (hs : 0 ≤ h.bz_getBZDBInt "_shotSpeed")
    (hv : p.velocity.z ≤ 0)
    (hz : (p.calculatePosition (h.atTime te)).z = 0)
    (hn : te ≤ now) :
    p.isExpired (h.atTime now) = true := by
  rw [isExpired_eq_true_iff]
  left
  rw [calculatePosition_z] at hz ⊢
  have hs' : (0 : ℚ) ≤ (h.bz_getBZDBInt "_shotSpeed" : ℚ) := by exact_mod_cast hs
  simp only [Host.atTime] at hz ⊢
  have hstep : (te - p.initialTime) * (h.bz_getBZDBInt "_shotSpeed" : ℚ)
      ≤ (now - p.initialTime) * (h.bz_getBZDBInt "_shotSpeed" : ℚ) :=
    mul_le_mul_of_nonneg_right (by linarith) hs'
  have h3 : p.velocity.z * ((now - p.initialTime) * (h.bz_getBZDBInt "_shotSpeed" : ℚ))
      ≤ p.velocity.z * ((te - p.initialTime) * (h.bz_getBZDBInt "_shotSpeed" : ℚ)) :=
    mul_le_mul_of_nonpos_left hstep hv
  linarith [mul_assoc p.velocity.z (te - p.initialTime) (h.bz_getBZDBInt "_shotSpeed" : ℚ),
    mul_assoc p.velocity.z (now - p.initialTime) (h.bz_getBZDBInt "_shotSpeed" : ℚ)]

/-- Witness of the amended C4: `sinkingPortal` on `demoHost` reaches the ground
plane at time `1` and is expired at time `3`. -/
theorem ground_plane_expiry_witness :
    (sinkingPortal.calculatePosition (demoHost.atTime 1)).z = 0 ∧
      sinkingPortal.isExpired (demoHost.atTime 3) = true :=
  have hz : (sinkingPortal.calculatePosition (demoHost.atTime 1)).z = 0 := by
    simp [Portal.calculatePosition, Host.atTime, demoHost, sinkingPortal]
    norm_num
  ⟨hz, ground_plane_expiry demoHost sinkingPortal 1 3 (by simp [demoHost])
    (by norm_num [sinkingPortal]) hz (by norm_num)⟩

/-- C5. For a Portal that is active and not expired at the event time and whose
projected position is within world boundaries, a qualifying fire event returns
normally and leaves the Portal active, locked, not spawned, with `lockTime` the
event time, `lockedPos` the projected position at that time and `lockedRot` the
heading of the firing player, the trajectory fields untouched; the calls made
are `bz_killPlayer` for that player followed by `bz_incrementPlayerLosses` with
`-1` (the kill costs no loss) and `playerAlive`. -/
theorem fire_locks (h : Host) (m : PortalMap) (playerID : ℤ) (playerRecord : PlayerRecord)
    (p : Portal)
    (hrec : h.bz_getPlayerByIndex playerID = some playerRecord)
    (hflag : playerRecord.currentFlag = "Dimension Door (+DD)")
    (hm : m playerID = some (some p))
    (hact : p.active = true)
    (hexp : p.isExpired h = false)
    (hin : h.bz_isWithinWorldBoundaries (p.calculatePosition h) = true) :
    ∃ q : Portal,
      Event h (.bz_eShotFiredEvent playerID) m =
        .ok (PortalMap.set m playerID (some q)) (.bz_eShotFiredEvent playerID)
          [ .bz_killPlayer playerID false h.BZ_SERVER "DD",
            .bz_incrementPlayerLosses playerID (-1),
            .playerAlive playerID ] ∧
      q.active = true ∧ q.locked = true ∧ q.spawned = false ∧
      q.lockTime = h.bz_getCurrentTime ∧
      q.lockedPos = p.calculatePosition h ∧
      q.lockedRot = playerRecord.lastKnownState.rotation ∧
      q.origin = p.origin ∧ q.velocity = p.velocity ∧ q.initialTime = p.initialTime := by
  refine ⟨{ p with
      lockedPos := p.calculatePosition h
      lockedRot := playerRecord.lastKnownState.rotation
      locked := true
      spawned := false
      lockTime := h.bz_getCurrentTime }, ?_, hact, rfl, rfl, rfl, rfl, rfl, rfl, rfl, rfl⟩
  have hin' : h.bz_isWithinWorldBoundaries
      { x := (p.calculatePosition h).x, y := (p.calculatePosition h).y,
        z := (p.calculatePosition h).z } = true := hin
  simp [Event, hrec, hflag, PortalMap.index_of_entry m playerID (some p) hm, shotFired,
    Portal.isActive, hact, hexp, hin', Portal.lock]

/-- Witness of C5: player `7` fires again on `demoHost` while `flyingPortal` is in
flight inside the world. -/
theorem fire_locks_witness :
    flyingPortal.isExpired demoHost = false ∧
      ∃ q : Portal,
        Event demoHost (.bz_eShotFiredEvent 7) (demoMap flyingPortal) =
          .ok (PortalMap.set (demoMap flyingPortal) 7 (some q)) (.bz_eShotFiredEvent 7)
            [ .bz_killPlayer 7 false demoHost.BZ_SERVER "DD",
              .bz_incrementPlayerLosses 7 (-1),
              .playerAlive 7 ] ∧
        q.active = true ∧ q.locked = true ∧ q.spawned = false ∧
        q.lockTime = demoHost.bz_getCurrentTime ∧
        q.lockedPos = flyingPortal.calculatePosition demoHost ∧
        q.lockedRot = demoRecord.lastKnownState.rotation ∧
        q.origin = flyingPortal.origin ∧ q.velocity = flyingPortal.velocity ∧
        q.initialTime = flyingPortal.initialTime :=
  have hexp : flyingPortal.isExpired demoHost = false := by
    simp [Portal.isExpired, Portal.calculatePosition, demoHost, flyingPortal]
    norm_num
  ⟨hexp, fire_locks demoHost (demoMap flyingPortal) 7 demoRecord flyingPortal
    (by simp [demoHost]) rfl (by simp [demoMap, PortalMap.set]) rfl hexp
    (by simp [Portal.calculatePosition, demoHost, flyingPortal]; norm_num)⟩

/-- C6. For a Portal that is active and not expired at the event time and whose
projected position is outside world boundaries, a qualifying fire event returns
normally, leaves the Portal cleared (`active = false`, `locked = false`,
`spawned = true`), and makes exactly one call: the warning text message to that
player; in particular no `bz_killPlayer`. -/
theorem fire_rejects_outside (h : Host) (m : PortalMap) (playerID : ℤ)
    (playerRecord : PlayerRecord) (p : Portal)
    (hrec : h.bz_getPlayerByIndex playerID = some playerRecord)
    (hflag : playerRecord.currentFlag = "Dimension Door (+DD)")
    (hm : m playerID = some (some p))
    (hact : p.active = true)
    (hexp : p.isExpired h = false)
    (hout : h.bz_isWithinWorldBoundaries (p.calculatePosition h) = false) :
    Event h (.bz_eShotFiredEvent playerID) m =
        .ok (PortalMap.set m playerID (some p.clear)) (.bz_eShotFiredEvent playerID)
          [ .bz_sendTextMessage h.BZ_SERVER playerID "You cannot teleport outside the map." ] ∧
      p.clear.active = false ∧ p.clear.locked = false ∧ p.clear.spawned = true ∧
      ∀ c ∈ (Event h (.bz_eShotFiredEvent playerID) m).calls, c.isKillPlayer = false := by
  have hout' : h.bz_isWithinWorldBoundaries
      { x := (p.calculatePosition h).x, y := (p.calculatePosition h).y,
        z := (p.calculatePosition h).z } = false := hout
  have hev : Event h (.bz_eShotFiredEvent playerID) m =
      .ok (PortalMap.set m playerID (some p.clear)) (.bz_eShotFiredEvent playerID)
        [ .bz_sendTextMessage h.BZ_SERVER playerID "You cannot teleport outside the map." ] := by
    simp [Event, hrec, hflag, PortalMap.index_of_entry m playerID (some p) hm, shotFired,
      Portal.isActive, hact, hexp, hout']
  refine ⟨hev, rfl, rfl, rfl, ?_⟩
  rw [hev]
  intro c hc
  simp [Outcome.calls] at hc
  subst hc
  rfl

/-- Witness of C6: at time `1` the marker `flyingPortal` is at `x = 414`, outside the
world of `demoHost`. -/
theorem fire_rejects_outside_witness :
    demoHost.bz_isWithinWorldBoundaries
        (flyingPortal.calculatePosition (demoHost.atTime 1)) = false ∧
      Event (demoHost.atTime 1) (.bz_eShotFiredEvent 7) (demoMap flyingPortal) =
        .ok (PortalMap.set (demoMap flyingPortal) 7 (some flyingPortal.clear))
          (.bz_eShotFiredEvent 7)
          [ .bz_sendTextMessage (-2) 7 "You cannot teleport outside the map." ] :=
  have hout : demoHost.bz_isWithinWorldBoundaries
      (flyingPortal.calculatePosition (demoHost.atTime 1)) = false := by
    simp [Portal.calculatePosition, Host.atTime, demoHost, flyingPortal]
    norm_num
  ⟨hout, (fire_rejects_outside (demoHost.atTime 1) (demoMap flyingPortal) 7 demoRecord
    flyingPortal (by simp [demoHost, Host.atTime]) rfl (by simp [demoMap, PortalMap.set]) rfl
    (by simp [Portal.isExpired, Portal.calculatePosition, Host.atTime, demoHost, flyingPortal]
        norm_num)
    hout).1⟩

/-- C7. A spawn-position request for a player who has a Portal returns normally and
makes no call.  If the Portal is active with `spawned = false`, the position of
the event becomes `lockedPos`, its rotation `lockedRot`, and the Portal changes
in `spawned` alone, which becomes true (so a locked Portal goes from pending
spawn to cooldown).  In every other case the event data, the Portal and the map
are left as they were. -/
theorem spawn_step (h : Host) (m : PortalMap) (playerID : ℤ) (pos : Vec3) (rot : ℚ)
    (p : Portal) (hm : m playerID = some (some p)) :
    (p.active = true ∧ p.spawned = false →
      Event h (.bz_eGetPlayerSpawnPosEvent playerID pos rot) m =
        .ok (PortalMap.set m playerID (some { p with spawned := true }))
          (.bz_eGetPlayerSpawnPosEvent playerID p.lockedPos p.lockedRot) []) ∧
    (¬ (p.active = true ∧ p.spawned = false) →
      Event h (.bz_eGetPlayerSpawnPosEvent playerID pos rot) m =
        .ok m (.bz_eGetPlayerSpawnPosEvent playerID pos rot) []) := by
  constructor
  · rintro ⟨hact, hsp⟩
    simp [Event, PortalMap.index_of_entry m playerID (some p) hm, getPlayerSpawnPos,
      Portal.isActive, Portal.getLockedPos, Portal.getLockedRot, hact, hsp]
  · intro hno
    have hcond : (p.isActive && !p.spawned) = false := by
      cases hact : p.active <;> cases hsp : p.spawned <;>
        simp_all [Portal.isActive]
    simp [Event, PortalMap.index_of_entry m playerID (some p) hm, getPlayerSpawnPos, hcond,
      PortalMap.set_of_entry m playerID (some p) hm]

/-- Witness of C7: the server asks where to spawn player `7`, whose Portal is
`pendingPortal`; a Portal that has already spawned leaves the request as it was. -/
theorem spawn_step_witness :
    Event demoHost (.bz_eGetPlayerSpawnPosEvent 7 ⟨0, 0, 0⟩ 0) (demoMap pendingPortal) =
        .ok (PortalMap.set (demoMap pendingPortal) 7 (some cooldownPortalAfterSpawn))
          (.bz_eGetPlayerSpawnPosEvent 7 ⟨214, 20, 3 / 2⟩ 1) [] ∧
      Event demoHost (.bz_eGetPlayerSpawnPosEvent 7 ⟨0, 0, 0⟩ 0) (demoMap cooldownPortal) =
        .ok (demoMap cooldownPortal) (.bz_eGetPlayerSpawnPosEvent 7 ⟨0, 0, 0⟩ 0) [] :=
  ⟨(spawn_step demoHost (demoMap pendingPortal) 7 ⟨0, 0, 0⟩ 0 pendingPortal
      (by simp [demoMap, PortalMap.set])).1 ⟨rfl, rfl⟩,
    (spawn_step demoHost (demoMap cooldownPortal) 7 ⟨0, 0, 0⟩ 0 cooldownPortal
      (by simp [demoMap, PortalMap.set])).2 (by simp [cooldownPortal])⟩

/-- C8. A per-player tick for a player who has a Portal returns normally.  If the
Portal is locked and spawned, then when `now - lockTime` exceeds the configured
cooldown the Portal is cleared (`active = false`, `locked = false`,
`spawned = true`) and the flag `DD` is given to the player with `force = true`,
followed by the text message; when `now - lockTime` does not exceed the
cooldown (in particular when it is below it) the Portal and the map are
unchanged and no call is made.  If the Portal is not both locked and spawned,
nothing changes and no call is made, whatever the time. -/
theorem cooldown_step (h : Host) (m : PortalMap) (playerID : ℤ) (p : Portal)
    (hm : m playerID = some (some p)) :
    (p.locked = true ∧ p.spawned = true ∧
        h.bz_getCurrentTime - p.lockTime > h.bz_getBZDBDouble "_dimensionDoorCooldownTime" →
      Event h (.bz_ePlayerUpdateEvent playerID) m =
          .ok (PortalMap.set m playerID (some p.clear)) (.bz_ePlayerUpdateEvent playerID)
            [ .bz_givePlayerFlag playerID "DD" true,
              .bz_sendTextMessage h.BZ_SERVER playerID
                "If you have teleported inside a building, press [delete] to self-destruct." ] ∧
        p.clear.active = false ∧ p.clear.locked = false ∧ p.clear.spawned = true) ∧
    (p.locked = true ∧ p.spawned = true ∧
        h.bz_getCurrentTime - p.lockTime ≤ h.bz_getBZDBDouble "_dimensionDoorCooldownTime" →
      Event h (.bz_ePlayerUpdateEvent playerID) m =
        .ok m (.bz_ePlayerUpdateEvent playerID) []) ∧
    (¬ (p.locked = true ∧ p.spawned = true) →
      Event h (.bz_ePlayerUpdateEvent playerID) m =
        .ok m (.bz_ePlayerUpdateEvent playerID) []) := by
  refine ⟨?_, ?_, ?_⟩
  · rintro ⟨hl, hsp, ht⟩
    refine ⟨?_, rfl, rfl, rfl⟩
    have ht' : h.bz_getBZDBDouble "_dimensionDoorCooldownTime"
        < h.bz_getCurrentTime - p.lockTime := ht
    simp [Event, PortalMap.index_of_entry m playerID (some p) hm, playerUpdate, hl, hsp, ht']
  · rintro ⟨hl, hsp, ht⟩
    have ht' : ¬ h.bz_getBZDBDouble "_dimensionDoorCooldownTime"
        < h.bz_getCurrentTime - p.lockTime := not_lt.mpr ht
    simp [Event, PortalMap.index_of_entry m playerID (some p) hm, playerUpdate, hl, hsp, ht',
      PortalMap.set_of_entry m playerID (some p) hm]
  · intro hno
    have hcond : (p.locked && p.spawned) = false := by
      cases hl : p.locked <;> cases hsp : p.spawned <;> simp_all
    simp [Event, PortalMap.index_of_entry m playerID (some p) hm, playerUpdate, hcond,
      PortalMap.set_of_entry m playerID (some p) hm]

/-- Witness of C8: `cooldownPortal` was locked at time `0` and the cooldown is `3/10`;
the tick at time `1/2` clears it, the tick at time `1/5` does not, and a tick
for `pendingPortal` does nothing. -/
theorem cooldown_step_witness :
    Event demoHost (.bz_ePlayerUpdateEvent 7) (demoMap cooldownPortal) =
        .ok (PortalMap.set (demoMap cooldownPortal) 7 (some cooldownPortal.clear))
          (.bz_ePlayerUpdateEvent 7)
          [ .bz_givePlayerFlag 7 "DD" true,
            .bz_sendTextMessage (-2) 7
              "If you have teleported inside a building, press [delete] to self-destruct." ] ∧
      Event (demoHost.atTime (1 / 5)) (.bz_ePlayerUpdateEvent 7) (demoMap cooldownPortal) =
        .ok (demoMap cooldownPortal) (.bz_ePlayerUpdateEvent 7) [] ∧
      Event (demoHost.atTime 9) (.bz_ePlayerUpdateEvent 7) (demoMap pendingPortal) =
        .ok (demoMap pendingPortal) (.bz_ePlayerUpdateEvent 7) [] :=
  ⟨((cooldown_step demoHost (demoMap cooldownPortal) 7 cooldownPortal
      (by simp [demoMap, PortalMap.set])).1
      ⟨rfl, rfl, by simp [demoHost, cooldownPortal]; norm_num⟩).1,
    (cooldown_step (demoHost.atTime (1 / 5)) (demoMap cooldownPortal) 7 cooldownPortal
      (by simp [demoMap, PortalMap.set])).2.1
      ⟨rfl, rfl, by simp [demoHost, Host.atTime, cooldownPortal]; norm_num⟩,
    (cooldown_step (demoHost.atTime 9) (demoMap pendingPortal) 7 pendingPortal
      (by simp [demoMap, PortalMap.set])).2.2 (by simp [pendingPortal])⟩

/-- C9. For a Portal that is active and not expired at the event time, a qualifying
fire event makes no `bz_fireServerShot` call and does not start a new marker: it
either locks the Portal (destination within world boundaries; origin, velocity
and launch time kept, calls kill, loss decrement, `playerAlive`) or clears it
with the warning message as its only call (destination outside). -/
theorem single_marker (h : Host) (m : PortalMap) (playerID : ℤ) (playerRecord : PlayerRecord)
    (p : Portal)
    (hrec : h.bz_getPlayerByIndex playerID = some playerRecord)
    (hflag : playerRecord.currentFlag = "Dimension Door (+DD)")
    (hm : m playerID = some (some p))
    (hact : p.active = true)
    (hexp : p.isExpired h = false) :
    (∀ c ∈ (Event h (.bz_eShotFiredEvent playerID) m).calls, c.isFireServerShot = false) ∧
    ((h.bz_isWithinWorldBoundaries (p.calculatePosition h) = true ∧
        Event h (.bz_eShotFiredEvent playerID) m =
          .ok (PortalMap.set m playerID (some
              { p with
                lockedPos := p.calculatePosition h
                lockedRot := playerRecord.lastKnownState.rotation
                locked := true
                spawned := false
                lockTime := h.bz_getCurrentTime }))
            (.bz_eShotFiredEvent playerID)
            [ .bz_killPlayer playerID false h.BZ_SERVER "DD",
              .bz_incrementPlayerLosses playerID (-1),
              .playerAlive playerID ]) ∨
      (h.bz_isWithinWorldBoundaries (p.calculatePosition h) = false ∧
        Event h (.bz_eShotFiredEvent playerID) m =
          .ok (PortalMap.set m playerID (some p.clear)) (.bz_eShotFiredEvent playerID)
            [ .bz_sendTextMessage h.BZ_SERVER playerID
                "You cannot teleport outside the map." ])) := by
  cases hin : h.bz_isWithinWorldBoundaries (p.calculatePosition h)
  · have hin' : h.bz_isWithinWorldBoundaries
        { x := (p.calculatePosition h).x, y := (p.calculatePosition h).y,
          z := (p.calculatePosition h).z } = false := hin
    have hev : Event h (.bz_eShotFiredEvent playerID) m =
        .ok (PortalMap.set m playerID (some p.clear)) (.bz_eShotFiredEvent playerID)
          [ .bz_sendTextMessage h.BZ_SERVER playerID
              "You cannot teleport outside the map." ] := by
      simp [Event, hrec, hflag, PortalMap.index_of_entry m playerID (some p) hm, shotFired,
        Portal.isActive, hact, hexp, hin']
    refine ⟨?_, Or.inr ⟨rfl, hev⟩⟩
    rw [hev]
    intro c hc
    simp [Outcome.calls] at hc
    subst hc
    rfl
  · have hin' : h.bz_isWithinWorldBoundaries
        { x := (p.calculatePosition h).x, y := (p.calculatePosition h).y,
          z := (p.calculatePosition h).z } = true := hin
    have hev : Event h (.bz_eShotFiredEvent playerID) m =
        .ok (PortalMap.set m playerID (some
            { p with
              lockedPos := p.calculatePosition h
              lockedRot := playerRecord.lastKnownState.rotation
              locked := true
              spawned := false
              lockTime := h.bz_getCurrentTime }))
          (.bz_eShotFiredEvent playerID)
          [ .bz_killPlayer playerID false h.BZ_SERVER "DD",
            .bz_incrementPlayerLosses playerID (-1),
            .playerAlive playerID ] := by
      simp [Event, hrec, hflag, PortalMap.index_of_entry m playerID (some p) hm, shotFired,
        Portal.isActive, hact, hexp, hin', Portal.lock]
    refine ⟨?_, Or.inl ⟨rfl, hev⟩⟩
    rw [hev]
    intro c hc
    simp [Outcome.calls] at hc
    rcases hc with hc | hc | hc <;> subst hc <;> rfl

/-- Witness of C9: player `7` fires on `demoHost` at time `1/4` while `flyingPortal`
is in flight; no projectile is launched. -/
theorem single_marker_witness :
    flyingPortal.active = true ∧
      flyingPortal.isExpired (demoHost.atTime (1 / 4)) = false ∧
      ∀ c ∈ (Event (demoHost.atTime (1 / 4)) (.bz_eShotFiredEvent 7)
          (demoMap flyingPortal)).calls, c.isFireServerShot = false :=
  have hexp : flyingPortal.isExpired (demoHost.atTime (1 / 4)) = false := by
    simp [Portal.isExpired, Portal.calculatePosition, Host.atTime, demoHost, flyingPortal]
    norm_num
  ⟨rfl, hexp, (single_marker (demoHost.atTime (1 / 4)) (demoMap flyingPortal) 7 demoRecord
    flyingPortal (by simp [demoHost, Host.atTime]) rfl (by simp [demoMap, PortalMap.set]) rfl
    hexp).1⟩

/-- C10. For a Portal with `active = false`, a qualifying fire event by a player at
`(px, py, pz)` with heading `r` returns normally and leaves the Portal active
with launch time the event time, origin
`(px + 4 * cos r, py + 4 * sin r, pz + muzzleHeight)` and velocity
`(cos r * adVel, sin r * adVel, vz)`, where `vz` is `0` when the
vertical-velocity toggle is off and the vertical velocity of the player divided
by the shot speed when it is on; `locked`, `spawned` and the other fields are
left as they were. -/
theorem idle_fire_launches (h : Host) (m : PortalMap) (playerID : ℤ)
    (playerRecord : PlayerRecord) (p : Portal)
    (hrec : h.bz_getPlayerByIndex playerID = some playerRecord)
    (hflag : playerRecord.currentFlag = "Dimension Door (+DD)")
    (hm : m playerID = some (some p))
    (hact : p.active = false) :
    ∃ calls : List HostCall,
      Event h (.bz_eShotFiredEvent playerID) m =
        .ok (PortalMap.set m playerID (some
            { p with
              active := true
              initialTime := h.bz_getCurrentTime
              origin :=
                { x := playerRecord.lastKnownState.pos.x
                        + 4 * h.cos playerRecord.lastKnownState.rotation
                  y := playerRecord.lastKnownState.pos.y
                        + 4 * h.sin playerRecord.lastKnownState.rotation
                  z := playerRecord.lastKnownState.pos.z
                        + h.bz_getBZDBDouble "_muzzleHeight" }
              velocity :=
                { x := h.cos playerRecord.lastKnownState.rotation
                        * h.bz_getBZDBDouble "_dimensionDoorAdVel"
                  y := h.sin playerRecord.lastKnownState.rotation
                        * h.bz_getBZDBDouble "_dimensionDoorAdVel"
                  z := if h.bz_getBZDBBool "_dimensionDoorVerticalVelocity" = true then
                         playerRecord.lastKnownState.velocity.z
                           / h.bz_getBZDBDouble "_shotSpeed"
                       else 0 } }))
          (.bz_eShotFiredEvent playerID) calls := by
  refine ⟨(Event h (.bz_eShotFiredEvent playerID) m).calls, ?_⟩
  simp [Event, hrec, hflag, PortalMap.index_of_entry m playerID (some p) hm, shotFired,
    Portal.isActive, hact, Portal.init, Outcome.calls, mul_comm]

/-- Witness of C10: player `7` of `demoHost`, at `(10, 20, 0)` with heading `0` and
rising at `19`, fires with an idle Portal. -/
theorem idle_fire_launches_witness :
    ∃ calls : List HostCall,
      Event demoHost (.bz_eShotFiredEvent 7) (demoMap idlePortal) =
        .ok (PortalMap.set (demoMap idlePortal) 7 (some
            { idlePortal with
              active := true
              initialTime := 1 / 2
              origin := ⟨14, 20, 157 / 100⟩
              velocity := ⟨4, 0, 19 / 100⟩ }))
          (.bz_eShotFiredEvent 7) calls := by
  have key := idle_fire_launches demoHost (demoMap idlePortal) 7 demoRecord idlePortal
    (by simp [demoHost]) rfl (by simp [demoMap, PortalMap.set]) rfl
  obtain ⟨calls, hcalls⟩ := key
  refine ⟨calls, ?_⟩
  rw [hcalls]
  simp [demoHost, demoRecord, idlePortal]
  norm_num

/-! ## Lemmas about the handlers -/

theorem PortalMap.set_set (m : PortalMap) (k : ℤ) (v w : Option Portal) :
    PortalMap.set (PortalMap.set m k v) k w = PortalMap.set m k w := by
  funext i
  unfold PortalMap.set
  by_cases hi : i = k <;> simp [hi]

theorem PortalMap.set_same (m : PortalMap) (k : ℤ) (v : Option Portal) :
    PortalMap.set m k v k = some v := by
  simp [PortalMap.set]

theorem PortalMap.set_of_ne (m : PortalMap) (k i : ℤ) (v : Option Portal) (hi : i ≠ k) :
    PortalMap.set m k v i = m i := by
  simp [PortalMap.set, hi]

theorem PortalMap.index_fst_of_ne (m : PortalMap) (k i : ℤ) (hi : i ≠ k) :
    (PortalMap.index m k).1 i = m i := by
  unfold PortalMap.index
  cases hk : m k with
  | none => simp [PortalMap.set, hi]
  | some v => rfl

theorem PortalMap.index_of_missing (m : PortalMap) (k : ℤ) (hm : m k = none) :
    PortalMap.index m k = (PortalMap.set m k none, none) := by
  unfold PortalMap.index
  rw [hm]

theorem PortalMap.erase_set_of_missing (m : PortalMap) (k : ℤ) (v : Option Portal)
    (hm : m k = none) : PortalMap.erase (PortalMap.set m k v) k = m := by
  funext i
  unfold PortalMap.erase PortalMap.set
  by_cases hi : i = k
  · subst hi
    simp [hm]
  · simp [hi]

theorem shotFired_launch (h : Host) (k : ℤ) (playerRecord : PlayerRecord) (p : Portal)
    (hl : p.active = false ∨ p.isExpired h = true) :
    shotFired h k playerRecord p =
      .done (Portal.init h (launchPos h playerRecord) (launchVel h playerRecord)
          (if p.active = true then p.clear else p))
        (launchCalls h k playerRecord) := by
  cases hact : p.active
  · simp [shotFired, Portal.isActive, hact, launchPos, launchVel, launchOffset, launchCalls]
  · have hexp : p.isExpired h = true := by
      rcases hl with hl | hl
      · rw [hact] at hl
        cases hl
      · exact hl
    simp [shotFired, Portal.isActive, hact, hexp, Portal.clear, launchPos, launchVel,
      launchOffset, launchCalls]

theorem shotFired_outside (h : Host) (k : ℤ) (playerRecord : PlayerRecord) (p : Portal)
    (hact : p.active = true) (hexp : p.isExpired h = false)
    (hout : h.bz_isWithinWorldBoundaries (p.calculatePosition h) = false) :
    shotFired h k playerRecord p =
      .done p.clear
        [ .bz_sendTextMessage h.BZ_SERVER k "You cannot teleport outside the map." ] := by
  have hout' : h.bz_isWithinWorldBoundaries
      { x := (p.calculatePosition h).x, y := (p.calculatePosition h).y,
        z := (p.calculatePosition h).z } = false := hout
  simp [shotFired, Portal.isActive, hact, hexp, hout']

theorem shotFired_inside (h : Host) (k : ℤ) (playerRecord : PlayerRecord) (p : Portal)
    (hrec : h.bz_getPlayerByIndex k = some playerRecord)
    (hact : p.active = true) (hexp : p.isExpired h = false)
    (hin : h.bz_isWithinWorldBoundaries (p.calculatePosition h) = true) :
    shotFired h k playerRecord p =
      .done
        { p with
          lockedPos := p.calculatePosition h
          lockedRot := playerRecord.lastKnownState.rotation
          locked := true
          spawned := false
          lockTime := h.bz_getCurrentTime }
        [ .bz_killPlayer k false h.BZ_SERVER "DD",
          .bz_incrementPlayerLosses k (-1),
          .playerAlive k ] := by
  have hin' : h.bz_isWithinWorldBoundaries
      { x := (p.calculatePosition h).x, y := (p.calculatePosition h).y,
        z := (p.calculatePosition h).z } = true := hin
  simp [shotFired, Portal.isActive, hact, hexp, hin', Portal.lock, hrec]

theorem Event_shot_done (h : Host) (m : PortalMap) (k : ℤ) (playerRecord : PlayerRecord)
    (p q : Portal) (calls : List HostCall)
    (hrec : h.bz_getPlayerByIndex k = some playerRecord)
    (hflag : playerRecord.currentFlag = "Dimension Door (+DD)")
    (hm : m k = some (some p))
    (hs : shotFired h k playerRecord p = .done q calls) :
    Event h (.bz_eShotFiredEvent k) m =
      .ok (PortalMap.set m k (some q)) (.bz_eShotFiredEvent k) calls := by
  simp [Event, hrec, hflag, PortalMap.index_of_entry m k (some p) hm, hs]

theorem Event_shot_nonqualifying (h : Host) (m : PortalMap) (k : ℤ)
    (hno : ∀ playerRecord, h.bz_getPlayerByIndex k = some playerRecord →
      playerRecord.currentFlag ≠ "Dimension Door (+DD)") :
    Event h (.bz_eShotFiredEvent k) m = .ok m (.bz_eShotFiredEvent k) [] := by
  cases hrec : h.bz_getPlayerByIndex k with
  | none => simp [Event, hrec]
  | some playerRecord => simp [Event, hrec, hno playerRecord hrec]

theorem Event_spawn_of_entry (h : Host) (m : PortalMap) (k : ℤ) (pos : Vec3) (rot : ℚ)
    (p : Portal) (hm : m k = some (some p)) :
    Event h (.bz_eGetPlayerSpawnPosEvent k pos rot) m =
      .ok (PortalMap.set m k (some (getPlayerSpawnPos pos rot p).1))
        (.bz_eGetPlayerSpawnPosEvent k (getPlayerSpawnPos pos rot p).2.1
          (getPlayerSpawnPos pos rot p).2.2) [] := by
  simp [Event, PortalMap.index_of_entry m k (some p) hm]

theorem Event_update_of_entry (h : Host) (m : PortalMap) (k : ℤ) (p : Portal)
    (hm : m k = some (some p)) :
    Event h (.bz_ePlayerUpdateEvent k) m =
      .ok (PortalMap.set m k (some (playerUpdate h k p).1)) (.bz_ePlayerUpdateEvent k)
        (playerUpdate h k p).2 := by
  simp [Event, PortalMap.index_of_entry m k (some p) hm]

theorem Event_portalMap_of_ne (h : Host) (e : EventData) (m : PortalMap) (i : ℤ)
    (hi : e.playerID ≠ some i) : (Event h e m).portalMap i = m i := by
  cases e with
  | bz_eShotFiredEvent k =>
    have hik : i ≠ k := fun hik => hi (by simp [EventData.playerID, hik])
    cases hrec : h.bz_getPlayerByIndex k with
    | none => simp [Event, hrec, Outcome.portalMap]
    | some playerRecord =>
      by_cases hflag : playerRecord.currentFlag = "Dimension Door (+DD)"
      · cases hk : m k with
        | none =>
          simp [Event, hrec, hflag, PortalMap.index_of_missing m k hk, Outcome.portalMap,
            PortalMap.set, hik]
        | some v =>
          cases v with
          | none =>
            simp [Event, hrec, hflag, PortalMap.index_of_entry m k none hk, Outcome.portalMap]
          | some p =>
            cases hs : shotFired h k playerRecord p <;>
              simp [Event, hrec, hflag, PortalMap.index_of_entry m k (some p) hk, hs,
                Outcome.portalMap, PortalMap.set, hik]
      · simp [Event, hrec, hflag, Outcome.portalMap]
  | bz_eGetPlayerSpawnPosEvent k pos rot =>
    have hik : i ≠ k := fun hik => hi (by simp [EventData.playerID, hik])
    cases hk : m k with
    | none =>
      simp [Event, PortalMap.index_of_missing m k hk, Outcome.portalMap, PortalMap.set, hik]
    | some v =>
      cases v with
      | none => simp [Event, PortalMap.index_of_entry m k none hk, Outcome.portalMap]
      | some p =>
        simp [Event, PortalMap.index_of_entry m k (some p) hk, Outcome.portalMap,
          PortalMap.set, hik]
  | bz_ePlayerUpdateEvent k =>
    have hik : i ≠ k := fun hik => hi (by simp [EventData.playerID, hik])
    cases hk : m k with
    | none =>
      simp [Event, PortalMap.index_of_missing m k hk, Outcome.portalMap, PortalMap.set, hik]
    | some v =>
      cases v with
      | none => simp [Event, PortalMap.index_of_entry m k none hk, Outcome.portalMap]
      | some p =>
        simp [Event, PortalMap.index_of_entry m k (some p) hk, Outcome.portalMap,
          PortalMap.set, hik]
  | bz_ePlayerJoinEvent k =>
    have hik : i ≠ k := fun hik => hi (by simp [EventData.playerID, hik])
    simp [Event, Outcome.portalMap, PortalMap.set, hik]
  | bz_ePlayerPartEvent k =>
    have hik : i ≠ k := fun hik => hi (by simp [EventData.playerID, hik])
    have hix := PortalMap.index_fst_of_ne m k i hik
    simp [Event, Outcome.portalMap, PortalMap.erase, hik, hix]
  | other => rfl

/-! ## The claims about launches, the registry and isolation -/

/-- C11. Whenever a qualifying fire launches a marker (the Portal is inactive, or
active and expired), the handler returns normally and its calls are exactly two
`bz_fireServerShot` calls of type `PZ`, at `origin + d` and `origin - d`, where
`origin` is the origin stored in the Portal and
`d = width * (-sin r, cos r, 0)`; both carry the velocity stored in the Portal
and the team of the firing player.  Hence the midpoint of the two positions is
the stored origin, `d` is perpendicular to the heading direction
`(cos r, sin r, 0)`, and, `cos` and `sin` obeying `cos² + sin² = 1`, the squared
length of `d` is `|width|²`. -/
theorem projectile_pair (h : Host) (m : PortalMap) (k : ℤ) (playerRecord : PlayerRecord)
    (p : Portal)
    (hrec : h.bz_getPlayerByIndex k = some playerRecord)
    (hflag : playerRecord.currentFlag = "Dimension Door (+DD)")
    (hm : m k = some (some p))
    (hl : p.active = false ∨ p.isExpired h = true) :
    ∃ (q : Portal) (d : Vec3),
      q = Portal.init h (launchPos h playerRecord) (launchVel h playerRecord)
            (if p.active = true then p.clear else p) ∧
      d = { x := h.bz_getBZDBDouble "_dimensionDoorWidth"
                  * -(h.sin playerRecord.lastKnownState.rotation)
            y := h.bz_getBZDBDouble "_dimensionDoorWidth"
                  * h.cos playerRecord.lastKnownState.rotation
            z := h.bz_getBZDBDouble "_dimensionDoorWidth" * 0 } ∧
      Event h (.bz_eShotFiredEvent k) m =
        .ok (PortalMap.set m k (some q)) (.bz_eShotFiredEvent k)
          [ .bz_fireServerShot "PZ"
              ⟨q.origin.x + d.x, q.origin.y + d.y, q.origin.z + d.z⟩ q.velocity
              (h.bz_getPlayerTeam k),
            .bz_fireServerShot "PZ"
              ⟨q.origin.x - d.x, q.origin.y - d.y, q.origin.z - d.z⟩ q.velocity
              (h.bz_getPlayerTeam k) ] ∧
      ((q.origin.x + d.x) + (q.origin.x - d.x)) / 2 = q.origin.x ∧
      ((q.origin.y + d.y) + (q.origin.y - d.y)) / 2 = q.origin.y ∧
      ((q.origin.z + d.z) + (q.origin.z - d.z)) / 2 = q.origin.z ∧
      d.x * h.cos playerRecord.lastKnownState.rotation
        + d.y * h.sin playerRecord.lastKnownState.rotation + d.z * 0 = 0 ∧
      (h.cos playerRecord.lastKnownState.rotation ^ 2
          + h.sin playerRecord.lastKnownState.rotation ^ 2 = 1 →
        d.x ^ 2 + d.y ^ 2 + d.z ^ 2 = |h.bz_getBZDBDouble "_dimensionDoorWidth"| ^ 2) := by
  refine ⟨_, _, rfl, rfl, ?_, by ring, by ring, by ring, by ring, ?_⟩
  · rw [Event_shot_done h m k playerRecord p _ _ hrec hflag hm
      (shotFired_launch h k playerRecord p hl)]
    simp [launchCalls, launchPos, launchOffset, launchVel, Portal.init, mul_comm]
  · intro htrig
    rw [sq_abs]
    have hsq : (h.bz_getBZDBDouble "_dimensionDoorWidth"
          * -(h.sin playerRecord.lastKnownState.rotation)) ^ 2
        + (h.bz_getBZDBDouble "_dimensionDoorWidth"
          * h.cos playerRecord.lastKnownState.rotation) ^ 2
        + (h.bz_getBZDBDouble "_dimensionDoorWidth" * 0) ^ 2
        = h.bz_getBZDBDouble "_dimensionDoorWidth" ^ 2
          * (h.cos playerRecord.lastKnownState.rotation ^ 2
            + h.sin playerRecord.lastKnownState.rotation ^ 2) := by ring
    rw [hsq, htrig, mul_one]

/-- Witness of C11: player `7` of `demoHost`, heading `0`, fires with an idle Portal;
the two shots start at `(14, 20 ± 2, 157/100)`. -/
theorem projectile_pair_witness :
    (Event demoHost (.bz_eShotFiredEvent 7) (demoMap idlePortal)).calls =
      [ .bz_fireServerShot "PZ" ⟨14, 22, 157 / 100⟩ ⟨4, 0, 19 / 100⟩ 1,
        .bz_fireServerShot "PZ" ⟨14, 18, 157 / 100⟩ ⟨4, 0, 19 / 100⟩ 1 ] := by
  obtain ⟨q, d, hq, hd, hev, _⟩ :=
    projectile_pair demoHost (demoMap idlePortal) 7 demoRecord idlePortal
      (by simp [demoHost]) rfl (by simp [demoMap, PortalMap.set]) (Or.inl rfl)
  rw [hev, hq, hd]
  simp [Outcome.calls, Portal.init, launchPos, launchVel, demoHost, demoRecord, idlePortal]
  norm_num

/-- C12. For a Portal that is active and expired at the event time, a qualifying
fire event gives exactly the outcome (map, event data, calls) that the same
event gives when the Portal has been cleared beforehand: a fresh launch.  The
Portal ends active with `locked = false`, `spawned = true`, launch time the
event time and the newly computed origin and velocity; the calls are the two
projectile launches and nothing else (no kill, no message); and the outcome
does not depend on the world-boundary test. -/
theorem expired_fire_relaunches (h : Host) (m : PortalMap) (k : ℤ)
    (playerRecord : PlayerRecord) (p : Portal)
    (hrec : h.bz_getPlayerByIndex k = some playerRecord)
    (hflag : playerRecord.currentFlag = "Dimension Door (+DD)")
    (hm : m k = some (some p))
    (hact : p.active = true)
    (hexp : p.isExpired h = true) :
    Event h (.bz_eShotFiredEvent k) m
        = Event h (.bz_eShotFiredEvent k) (PortalMap.set m k (some p.clear)) ∧
      (∃ (q : Portal) (calls : List HostCall),
        Event h (.bz_eShotFiredEvent k) m =
          .ok (PortalMap.set m k (some q)) (.bz_eShotFiredEvent k) calls ∧
        q.active = true ∧ q.locked = false ∧ q.spawned = true ∧
        q.initialTime = h.bz_getCurrentTime ∧
        q.origin = launchPos h playerRecord ∧ q.velocity = launchVel h playerRecord ∧
        calls.length = 2 ∧ ∀ c ∈ calls, c.isFireServerShot = true) ∧
      ∀ W : Vec3 → Bool,
        Event { h with bz_isWithinWorldBoundaries := W } (.bz_eShotFiredEvent k) m
          = Event h (.bz_eShotFiredEvent k) m := by
  have hev := Event_shot_done h m k playerRecord p _ _ hrec hflag hm
    (shotFired_launch h k playerRecord p (Or.inr hexp))
  simp only [hact, if_true] at hev
  refine ⟨?_, ⟨_, _, hev, rfl, rfl, rfl, rfl, rfl, rfl, rfl, ?_⟩, ?_⟩
  · have hev2 := Event_shot_done h (PortalMap.set m k (some p.clear)) k playerRecord p.clear
      _ _ hrec hflag (PortalMap.set_same m k (some p.clear))
      (shotFired_launch h k playerRecord p.clear (Or.inl rfl))
    rw [hev, hev2, PortalMap.set_set]
    rfl
  · intro c hc
    simp [launchCalls] at hc
    rcases hc with hc | hc <;> subst hc <;> rfl
  · intro W
    have hevW := Event_shot_done { h with bz_isWithinWorldBoundaries := W } m k playerRecord p
      _ _ hrec hflag hm
      (shotFired_launch { h with bz_isWithinWorldBoundaries := W } k playerRecord p
        (Or.inr hexp))
    simp only [hact, if_true] at hevW
    rw [hev, hevW]
    rfl

/-- Witness of C12: at time `4` the marker `spentPortal` has flown `400` units, past the
range `350`; player `7` fires and a new marker is launched, as from the cleared
Portal. -/
theorem expired_fire_relaunches_witness :
    spentPortal.isExpired (demoHost.atTime 4) = true ∧
      Event (demoHost.atTime 4) (.bz_eShotFiredEvent 7) (demoMap spentPortal)
        = Event (demoHost.atTime 4) (.bz_eShotFiredEvent 7)
            (PortalMap.set (demoMap spentPortal) 7 (some spentPortal.clear)) :=
  have hexp : spentPortal.isExpired (demoHost.atTime 4) = true := by
    simp [Portal.isExpired, Portal.calculatePosition, Host.atTime, demoHost, spentPortal,
      flyingPortal]
    norm_num
  ⟨hexp, (expired_fire_relaunches (demoHost.atTime 4) (demoMap spentPortal) 7 demoRecord
    spentPortal (by simp [demoHost, Host.atTime]) rfl (by simp [demoMap, PortalMap.set]) rfl
    hexp).1⟩

/-- C13, as stated, fails in its second part.  The Portal `freshPortal`, as
`new Portal()` leaves it, is idle (`active = false`, `locked = false`,
`spawned = true`) with origin `(1, 2, 3)`, and `clear` changes its origin to
`(0, 0, 0)`. -/
theorem clear_changes_idle :
    freshPortal.active = false ∧ freshPortal.locked = false ∧ freshPortal.spawned = true ∧
      freshPortal.origin = ⟨1, 2, 3⟩ ∧ freshPortal.clear.origin = ⟨0, 0, 0⟩ ∧
      freshPortal.clear ≠ freshPortal := by
  refine ⟨rfl, rfl, rfl, rfl, rfl, ?_⟩
  intro heq
  have hx : freshPortal.clear.origin.x = freshPortal.origin.x := by rw [heq]
  simp [freshPortal, Portal.new, Portal.clear, demoHost] at hx

/-- C13, amended.  For every Portal `p`, `clear p` is idle (`active = false`,
`locked = false`, `spawned = true`) with origin and velocity zero; calling
`clear` on an already-idle Portal changes no field other than origin and
velocity, and changes no field at all when these two are already zero; and
`clear (clear p) = clear p`. -/
theorem clear_idempotent (p : Portal) :
    (p.clear.active = false ∧ p.clear.locked = false ∧ p.clear.spawned = true ∧
      p.clear.origin = ⟨0, 0, 0⟩ ∧ p.clear.velocity = ⟨0, 0, 0⟩) ∧
    (p.active = false ∧ p.locked = false ∧ p.spawned = true →
      p.clear = { p with origin := ⟨0, 0, 0⟩, velocity := ⟨0, 0, 0⟩ }) ∧
    (p.active = false ∧ p.locked = false ∧ p.spawned = true ∧
        p.origin = ⟨0, 0, 0⟩ ∧ p.velocity = ⟨0, 0, 0⟩ →
      p.clear = p) ∧
    p.clear.clear = p.clear := by
  refine ⟨⟨rfl, rfl, rfl, rfl, rfl⟩, ?_, ?_, rfl⟩
  · rintro ⟨ha, hl, hs⟩
    cases p
    simp_all [Portal.clear]
  · rintro ⟨ha, hl, hs, ho, hv⟩
    cases p
    simp_all [Portal.clear]

/-- Witness of the amended C13: `idlePortal` is idle with zero origin and velocity,
and `clear` leaves it as it is. -/
theorem clear_idempotent_witness :
    idlePortal.clear = idlePortal ∧ flyingPortal.clear.clear = flyingPortal.clear :=
  ⟨(clear_idempotent idlePortal).2.2.1 ⟨rfl, rfl, rfl, rfl, rfl⟩,
    (clear_idempotent flyingPortal).2.2.2⟩

/-- C15, as stated, fails.  Player `7` has the Portal `flyingPortal`; a second join of
player `7` returns normally, makes no call, and the entry of player `7` is then
the new idle Portal `freshPortal`, not `flyingPortal`. -/
theorem duplicate_join_overwrites :
    demoMap flyingPortal 7 = some (some flyingPortal) ∧
      Event demoHost (.bz_ePlayerJoinEvent 7) (demoMap flyingPortal) =
        .ok (PortalMap.set (demoMap flyingPortal) 7 (some freshPortal))
          (.bz_ePlayerJoinEvent 7) [] ∧
      (Event demoHost (.bz_ePlayerJoinEvent 7) (demoMap flyingPortal)).portalMap 7
        = some (some freshPortal) ∧
      freshPortal ≠ flyingPortal := by
  refine ⟨by simp [demoMap, PortalMap.set], rfl, by simp [Event, Outcome.portalMap,
    PortalMap.set, freshPortal], ?_⟩
  intro heq
  have ha : freshPortal.active = flyingPortal.active := by rw [heq]
  simp [freshPortal, Portal.new, flyingPortal] at ha

/-- C15, amended.  For every registry that already holds a Portal for player `k`, a
join of `k` returns normally without any call; the entry of `k` is replaced by
a new Portal, which is idle, and the state of the previous Portal is gone. -/
theorem join_replaces (h : Host) (m : PortalMap) (k : ℤ) (p : Portal)
    (hm : m k = some (some p)) :
    Event h (.bz_ePlayerJoinEvent k) m =
        .ok (PortalMap.set m k (some (Portal.new h.freshMemory))) (.bz_ePlayerJoinEvent k) [] ∧
      (Event h (.bz_ePlayerJoinEvent k) m).portalMap k = some (some (Portal.new h.freshMemory)) ∧
      (Portal.new h.freshMemory).active = false ∧
      (Portal.new h.freshMemory).locked = false ∧
      (Portal.new h.freshMemory).spawned = true := by
  have _ := hm
  refine ⟨rfl, ?_, rfl, rfl, rfl⟩
  simp [Event, Outcome.portalMap, PortalMap.set]

/-- Witness of the amended C15: the second join of player `7`. -/
theorem join_replaces_witness :
    (Event demoHost (.bz_ePlayerJoinEvent 7) (demoMap flyingPortal)).portalMap 7
      = some (some (Portal.new demoHost.freshMemory)) :=
  (join_replaces demoHost (demoMap flyingPortal) 7 flyingPortal
    (by simp [demoMap, PortalMap.set])).2.1

/-- C16, as stated, fails.  The empty registry has no entry for player `9`.  A tick
for player `9` is not rejected: the lookup inserts a null entry for `9` and the
handler dereferences it.  A part of player `9` returns normally, with no call,
on the registry as it was. -/
theorem missing_entry_not_rejected :
    PortalMap.empty 9 = none ∧
      Event demoHost (.bz_ePlayerUpdateEvent 9) PortalMap.empty =
        .nullDereference (PortalMap.set PortalMap.empty 9 none) [] ∧
      PortalMap.set PortalMap.empty 9 none 9 = some none ∧
      Event demoHost (.bz_ePlayerPartEvent 9) PortalMap.empty =
        .ok PortalMap.empty (.bz_ePlayerPartEvent 9) [] := by
  refine ⟨rfl, ?_, by simp [PortalMap.set], ?_⟩
  · simp [Event, PortalMap.index_of_missing PortalMap.empty 9 rfl]
  · simp [Event, PortalMap.index_of_missing PortalMap.empty 9 rfl,
      PortalMap.erase_set_of_missing PortalMap.empty 9 none rfl]

/-- C16, amended.  For every registry with no entry for player `k`: a part of `k`
returns normally, makes no call and leaves the registry as it was; a qualifying
fire, a spawn-position request and a tick for `k` are not rejected with an
error: the lookup inserts a null entry for `k` and the handler dereferences
that null pointer, before any call to the server. -/
theorem missing_entry (h : Host) (m : PortalMap) (k : ℤ) (hm : m k = none) :
    Event h (.bz_ePlayerPartEvent k) m = .ok m (.bz_ePlayerPartEvent k) [] ∧
      (∀ playerRecord, h.bz_getPlayerByIndex k = some playerRecord →
        playerRecord.currentFlag = "Dimension Door (+DD)" →
        Event h (.bz_eShotFiredEvent k) m = .nullDereference (PortalMap.set m k none) []) ∧
      (∀ pos rot, Event h (.bz_eGetPlayerSpawnPosEvent k pos rot) m
        = .nullDereference (PortalMap.set m k none) []) ∧
      Event h (.bz_ePlayerUpdateEvent k) m = .nullDereference (PortalMap.set m k none) [] ∧
      PortalMap.set m k none k = some none := by
  refine ⟨?_, ?_, ?_, ?_, by simp [PortalMap.set]⟩
  · simp [Event, PortalMap.index_of_missing m k hm, PortalMap.erase_set_of_missing m k none hm]
  · intro playerRecord hrec hflag
    simp [Event, hrec, hflag, PortalMap.index_of_missing m k hm]
  · intro pos rot
    simp [Event, PortalMap.index_of_missing m k hm]
  · simp [Event, PortalMap.index_of_missing m k hm]

/-- Witness of the amended C16: player `7` of `demoHost` holds the flag and fires while
the registry is empty. -/
theorem missing_entry_witness :
    Event demoHost (.bz_eShotFiredEvent 7) PortalMap.empty
      = .nullDereference (PortalMap.set PortalMap.empty 7 none) [] :=
  (missing_entry demoHost PortalMap.empty 7 rfl).2.1 demoRecord (by simp [demoHost]) rfl

/-- C18. A weapon-fire event whose firing player has no player record, or has one
whose flag is not this flag, returns normally, leaves the whole registry
unchanged (the Portal of that player included) and makes no call. -/
theorem nonqualifying_fire_noop (h : Host) (m : PortalMap) (k : ℤ)
    (hno : ∀ playerRecord, h.bz_getPlayerByIndex k = some playerRecord →
      playerRecord.currentFlag ≠ "Dimension Door (+DD)") :
    Event h (.bz_eShotFiredEvent k) m = .ok m (.bz_eShotFiredEvent k) [] ∧
      (Event h (.bz_eShotFiredEvent k) m).portalMap = m ∧
      (Event h (.bz_eShotFiredEvent k) m).calls = [] := by
  have hev := Event_shot_nonqualifying h m k hno
  refine ⟨hev, ?_, ?_⟩
  · rw [hev]
    rfl
  · rw [hev]
    rfl

/-- Witness of C18: on `plainHost` player `7` holds no flag and player `9` has no
record; their shots change nothing. -/
theorem nonqualifying_fire_noop_witness :
    Event plainHost (.bz_eShotFiredEvent 7) (demoMap flyingPortal)
        = .ok (demoMap flyingPortal) (.bz_eShotFiredEvent 7) [] ∧
      Event plainHost (.bz_eShotFiredEvent 9) (demoMap flyingPortal)
        = .ok (demoMap flyingPortal) (.bz_eShotFiredEvent 9) [] :=
  ⟨(nonqualifying_fire_noop plainHost (demoMap flyingPortal) 7
      (by simp [plainHost, plainRecord])).1,
    (nonqualifying_fire_noop plainHost (demoMap flyingPortal) 9
      (by simp [plainHost])).1⟩

/-- C19. For every registry, every event that carries a player id `p` (fire,
spawn-position request, tick, join, part) and every other player id `q`, the
registry entry of `q`, and with it the state of the Portal of `q`, is the same
after the event as before; this holds also when the handler ends in a null
dereference. -/
theorem per_player_isolation (h : Host) (e : EventData) (m : PortalMap) (p q : ℤ)
    (hp : e.playerID = some p) (hq : q ≠ p) :
    (Event h e m).portalMap q = m q := by
  apply Event_portalMap_of_ne
  rw [hp]
  intro heq
  exact hq (Option.some.inj heq).symm

/-- Witness of C19: player `7` fires and locks; the Portal of player `8` stays
`pendingPortal`. -/
theorem per_player_isolation_witness :
    (Event demoHost (.bz_eShotFiredEvent 7) twoPlayerMap).portalMap 8
      = some (some pendingPortal) :=
  (per_player_isolation demoHost (.bz_eShotFiredEvent 7) twoPlayerMap 7 8 rfl
    (by decide)).trans (by simp [twoPlayerMap, PortalMap.set])

/-! ## Lemmas about sequences of events -/

theorem shotFired_cases (h : Host) (k : ℤ) (playerRecord : PlayerRecord) (p : Portal)
    (hrec : h.bz_getPlayerByIndex k = some playerRecord) :
    ((p.active = false ∨ p.isExpired h = true) ∧
      shotFired h k playerRecord p =
        .done (Portal.init h (launchPos h playerRecord) (launchVel h playerRecord)
            (if p.active = true then p.clear else p))
          (launchCalls h k playerRecord)) ∨
    (p.active = true ∧ p.isExpired h = false ∧
      h.bz_isWithinWorldBoundaries (p.calculatePosition h) = false ∧
      shotFired h k playerRecord p =
        .done p.clear
          [ .bz_sendTextMessage h.BZ_SERVER k "You cannot teleport outside the map." ]) ∨
    (p.active = true ∧ p.isExpired h = false ∧
      h.bz_isWithinWorldBoundaries (p.calculatePosition h) = true ∧
      shotFired h k playerRecord p =
        .done
          { p with
            lockedPos := p.calculatePosition h
            lockedRot := playerRecord.lastKnownState.rotation
            locked := true
            spawned := false
            lockTime := h.bz_getCurrentTime }
          [ .bz_killPlayer k false h.BZ_SERVER "DD",
            .bz_incrementPlayerLosses k (-1),
            .playerAlive k ]) := by
  rcases Bool.eq_false_or_eq_true p.active with hact | hact
  · rcases Bool.eq_false_or_eq_true (p.isExpired h) with hexp | hexp
    · exact Or.inl ⟨Or.inr hexp, shotFired_launch h k playerRecord p (Or.inr hexp)⟩
    · rcases Bool.eq_false_or_eq_true
        (h.bz_isWithinWorldBoundaries (p.calculatePosition h)) with hin | hin
      · exact Or.inr (Or.inr ⟨hact, hexp, hin,
          shotFired_inside h k playerRecord p hrec hact hexp hin⟩)
      · exact Or.inr (Or.inl ⟨hact, hexp, hin,
          shotFired_outside h k playerRecord p hact hexp hin⟩)
  · exact Or.inl ⟨Or.inl hact, shotFired_launch h k playerRecord p (Or.inl hact)⟩

theorem shotFired_done (h : Host) (k : ℤ) (playerRecord : PlayerRecord) (p : Portal)
    (hrec : h.bz_getPlayerByIndex k = some playerRecord) :
    ∃ q calls, shotFired h k playerRecord p = .done q calls := by
  rcases shotFired_cases h k playerRecord p hrec with ⟨_, hs⟩ | ⟨_, _, _, hs⟩ | ⟨_, _, _, hs⟩
  · exact ⟨_, _, hs⟩
  · exact ⟨_, _, hs⟩
  · exact ⟨_, _, hs⟩

theorem Event_shot_of_entry (h : Host) (m : PortalMap) (k : ℤ) (p : Portal)
    (hm : m k = some (some p)) :
    ∃ q calls, Event h (.bz_eShotFiredEvent k) m =
      .ok (PortalMap.set m k (some q)) (.bz_eShotFiredEvent k) calls := by
  cases hrec : h.bz_getPlayerByIndex k with
  | none =>
    refine ⟨p, [], ?_⟩
    rw [PortalMap.set_of_entry m k (some p) hm]
    exact Event_shot_nonqualifying h m k (by intro r hr; rw [hrec] at hr; cases hr)
  | some playerRecord =>
    by_cases hflag : playerRecord.currentFlag = "Dimension Door (+DD)"
    · obtain ⟨q, calls, hs⟩ := shotFired_done h k playerRecord p hrec
      exact ⟨q, calls, Event_shot_done h m k playerRecord p q calls hrec hflag hm hs⟩
    · refine ⟨p, [], ?_⟩
      rw [PortalMap.set_of_entry m k (some p) hm]
      apply Event_shot_nonqualifying
      intro r hr
      rw [hrec] at hr
      cases hr
      exact hflag

theorem registryMatches_set (c : ℤ → Bool) (m : PortalMap) (k : ℤ) (q : Portal)
    (hc : c k = true) (hinv : registryMatches c m) :
    registryMatches c (PortalMap.set m k (some q)) := by
  intro i
  by_cases hi : i = k
  · subst hi
    exact ⟨fun _ => ⟨q, PortalMap.set_same m i (some q)⟩, fun hf => by rw [hc] at hf; cases hf⟩
  · rw [PortalMap.set_of_ne m k i (some q) hi]
    exact hinv i

theorem Event_respects (h : Host) (e : EventData) (c : ℤ → Bool) (m : PortalMap)
    (hinv : registryMatches c m) (hord : respectsOrderingAt c e = true) :
    ∃ m1 d calls, Event h e m = .ok m1 d calls ∧ registryMatches (connectedAfter c e) m1 := by
  cases e with
  | bz_eShotFiredEvent k =>
    have hc : c k = true := hord
    obtain ⟨p, hp⟩ := (hinv k).1 hc
    obtain ⟨q, calls, hev⟩ := Event_shot_of_entry h m k p hp
    exact ⟨_, _, _, hev, registryMatches_set c m k q hc hinv⟩
  | bz_eGetPlayerSpawnPosEvent k pos rot =>
    have hc : c k = true := hord
    obtain ⟨p, hp⟩ := (hinv k).1 hc
    exact ⟨_, _, _, Event_spawn_of_entry h m k pos rot p hp, registryMatches_set c m k _ hc hinv⟩
  | bz_ePlayerUpdateEvent k =>
    have hc : c k = true := hord
    obtain ⟨p, hp⟩ := (hinv k).1 hc
    exact ⟨_, _, _, Event_update_of_entry h m k p hp, registryMatches_set c m k _ hc hinv⟩
  | bz_ePlayerJoinEvent k =>
    refine ⟨_, _, _, rfl, ?_⟩
    intro i
    by_cases hi : i = k
    · subst hi
      simp [connectedAfter, PortalMap.set]
    · simpa [connectedAfter, PortalMap.set, hi] using hinv i
  | bz_ePlayerPartEvent k =>
    have hc : c k = true := hord
    obtain ⟨p, hp⟩ := (hinv k).1 hc
    refine ⟨PortalMap.erase m k, .bz_ePlayerPartEvent k, [], ?_, ?_⟩
    · simp [Event, PortalMap.index_of_entry m k (some p) hp]
    · intro i
      by_cases hi : i = k
      · subst hi
        simp [connectedAfter, PortalMap.erase]
      · simpa [connectedAfter, PortalMap.erase, hi] using hinv i
  | other => exact ⟨_, _, _, rfl, hinv⟩

theorem runEvents_respects (evs : List (Host × EventData)) :
    ∀ (c : ℤ → Bool) (m : PortalMap), registryMatches c m → respectsOrdering c evs = true →
      ∃ m1, runEvents evs m = some m1 ∧ registryMatches (connectedAfterAll c evs) m1 := by
  induction evs with
  | nil =>
    intro c m hinv _
    exact ⟨m, rfl, hinv⟩
  | cons he rest ih =>
    intro c m hinv hord
    obtain ⟨h, e⟩ := he
    simp only [respectsOrdering, Bool.and_eq_true] at hord
    obtain ⟨m1, d, calls, hev, hinv1⟩ := Event_respects h e c m hinv hord.1
    obtain ⟨m2, hrun, hinv2⟩ := ih (connectedAfter c e) m1 hinv1 hord.2
    refine ⟨m2, ?_, hinv2⟩
    simp only [runEvents, hev]
    exact hrun

theorem respectsOrdering_take (evs : List (Host × EventData)) :
    ∀ (c : ℤ → Bool) (n : ℕ), respectsOrdering c evs = true →
      respectsOrdering c (evs.take n) = true := by
  induction evs with
  | nil =>
    intro c n _
    simp [respectsOrdering]
  | cons he rest ih =>
    intro c n hord
    cases n with
    | zero => simp [respectsOrdering]
    | succ n =>
      obtain ⟨h, e⟩ := he
      simp only [respectsOrdering, Bool.and_eq_true, List.take_succ_cons] at hord ⊢
      exact ⟨hord.1, ih (connectedAfter c e) n hord.2⟩

theorem registryMatches_empty : registryMatches (fun _ => false) PortalMap.empty := by
  intro i
  exact ⟨fun hf => (by cases hf), fun _ => rfl⟩

theorem Event_entry_origin (h : Host) (e : EventData) (m m1 : PortalMap) (d : EventData)
    (calls : List HostCall) (k : ℤ) (q : Portal)
    (hev : Event h e m = .ok m1 d calls) (hq : m1 k = some (some q)) :
    q = Portal.new h.freshMemory ∨ ∃ p, m k = some (some p) ∧ handlerStep h k p q := by
  by_cases hk : e.playerID = some k
  · cases e with
    | bz_eShotFiredEvent i =>
      have hik : i = k := by simpa [EventData.playerID] using hk
      subst hik
      right
      cases hmi : m i with
      | none =>
        cases hrec : h.bz_getPlayerByIndex i with
        | none =>
          simp [Event, hrec] at hev
          rw [← hev.1, hmi] at hq
          cases hq
        | some playerRecord =>
          by_cases hflag : playerRecord.currentFlag = "Dimension Door (+DD)"
          · simp [Event, hrec, hflag, PortalMap.index_of_missing m i hmi] at hev
          · simp [Event, hrec, hflag] at hev
            rw [← hev.1, hmi] at hq
            cases hq
      | some v =>
        cases v with
        | none =>
          cases hrec : h.bz_getPlayerByIndex i with
          | none =>
            simp [Event, hrec] at hev
            rw [← hev.1, hmi] at hq
            cases hq
          | some playerRecord =>
            by_cases hflag : playerRecord.currentFlag = "Dimension Door (+DD)"
            · simp [Event, hrec, hflag, PortalMap.index_of_entry m i none hmi] at hev
            · simp [Event, hrec, hflag] at hev
              rw [← hev.1, hmi] at hq
              cases hq
        | some p =>
          refine ⟨p, rfl, ?_⟩
          cases hrec : h.bz_getPlayerByIndex i with
          | none =>
            simp [Event, hrec] at hev
            rw [← hev.1, hmi] at hq
            have hqp : p = q := by simpa using hq
            exact Or.inl hqp.symm
          | some playerRecord =>
            by_cases hflag : playerRecord.currentFlag = "Dimension Door (+DD)"
            · cases hs : shotFired h i playerRecord p with
              | done q1 c1 =>
                rw [Event_shot_done h m i playerRecord p q1 c1 hrec hflag hmi hs] at hev
                simp at hev
                rw [← hev.1, PortalMap.set_same] at hq
                have hqq : q1 = q := by simpa using hq
                subst hqq
                exact Or.inr (Or.inl ⟨playerRecord, c1, hrec, hs⟩)
              | nullDereference q1 c1 =>
                simp [Event, hrec, hflag, PortalMap.index_of_entry m i (some p) hmi, hs] at hev
            · simp [Event, hrec, hflag] at hev
              rw [← hev.1, hmi] at hq
              have hqp : p = q := by simpa using hq
              exact Or.inl hqp.symm
    | bz_eGetPlayerSpawnPosEvent i pos rot =>
      have hik : i = k := by simpa [EventData.playerID] using hk
      subst hik
      right
      cases hmi : m i with
      | none => simp [Event, PortalMap.index_of_missing m i hmi] at hev
      | some v =>
        cases v with
        | none => simp [Event, PortalMap.index_of_entry m i none hmi] at hev
        | some p =>
          refine ⟨p, rfl, ?_⟩
          rw [Event_spawn_of_entry h m i pos rot p hmi] at hev
          simp at hev
          rw [← hev.1, PortalMap.set_same] at hq
          have hqq : (getPlayerSpawnPos pos rot p).1 = q := by simpa using hq
          exact Or.inr (Or.inr (Or.inl ⟨pos, rot, hqq.symm⟩))
    | bz_ePlayerUpdateEvent i =>
      have hik : i = k := by simpa [EventData.playerID] using hk
      subst hik
      right
      cases hmi : m i with
      | none => simp [Event, PortalMap.index_of_missing m i hmi] at hev
      | some v =>
        cases v with
        | none => simp [Event, PortalMap.index_of_entry m i none hmi] at hev
        | some p =>
          refine ⟨p, rfl, ?_⟩
          rw [Event_update_of_entry h m i p hmi] at hev
          simp at hev
          rw [← hev.1, PortalMap.set_same] at hq
          have hqq : (playerUpdate h i p).1 = q := by simpa using hq
          exact Or.inr (Or.inr (Or.inr hqq.symm))
    | bz_ePlayerJoinEvent i =>
      have hik : i = k := by simpa [EventData.playerID] using hk
      subst hik
      left
      simp [Event] at hev
      rw [← hev.1, PortalMap.set_same] at hq
      have hqq : Portal.new h.freshMemory = q := by simpa using hq
      exact hqq.symm
    | bz_ePlayerPartEvent i =>
      have hik : i = k := by simpa [EventData.playerID] using hk
      subst hik
      simp [Event] at hev
      rw [← hev.1] at hq
      simp [PortalMap.erase] at hq
    | other => simp [EventData.playerID] at hk
  · have hsame := Event_portalMap_of_ne h e m k hk
    rw [hev] at hsame
    simp only [Outcome.portalMap] at hsame
    right
    exact ⟨q, by rw [← hsame]; exact hq, Or.inl rfl⟩

theorem runEvents_entry_invariant (P : Portal → Prop) (H : Host → Prop) (k : ℤ)
    (hnew : ∀ memory, P (Portal.new memory))
    (hstep : ∀ h p q, H h → P p → handlerStep h k p q → P q)
    (evs : List (Host × EventData)) :
    ∀ (m m1 : PortalMap), (∀ he ∈ evs, H he.1) → (∀ p, m k = some (some p) → P p) →
      runEvents evs m = some m1 → ∀ q, m1 k = some (some q) → P q := by
  induction evs with
  | nil =>
    intro m m1 _ hm hrun q hq
    simp only [runEvents, Option.some.injEq] at hrun
    subst hrun
    exact hm q hq
  | cons he rest ih =>
    intro m m1 hH hm hrun q hq
    obtain ⟨h, e⟩ := he
    simp only [runEvents] at hrun
    cases hev : Event h e m with
    | nullDereference m2 calls =>
      rw [hev] at hrun
      cases hrun
    | ok m2 d calls =>
      rw [hev] at hrun
      have hH0 : H h := hH (h, e) (List.mem_cons_self _ _)
      refine ih m2 m1 (fun he hmem => hH he (List.mem_cons_of_mem _ hmem)) ?_ hrun q hq
      intro p2 hp2
      rcases Event_entry_origin h e m m2 d calls k p2 hev hp2 with hfresh | ⟨p, hp, hst⟩
      · rw [hfresh]
        exact hnew _
      · exact hstep h p p2 hH0 (hm p hp) hst

theorem flagsConsistent_new (memory : Portal) : (Portal.new memory).flagsConsistent := by
  simp [Portal.flagsConsistent, Portal.new]

theorem flagsConsistent_step (h : Host) (k : ℤ) (p q : Portal) (hp : p.flagsConsistent)
    (hst : handlerStep h k p q) : q.flagsConsistent := by
  rcases hst with rfl | ⟨playerRecord, calls, hrec, hs⟩ | ⟨pos, rot, rfl⟩ | rfl
  · exact hp
  · rcases shotFired_cases h k playerRecord p hrec with
      ⟨_, hs1⟩ | ⟨_, _, _, hs1⟩ | ⟨hact, _, _, hs1⟩
    · rw [hs1] at hs
      injection hs with hq _
      subst hq
      unfold Portal.flagsConsistent at *
      by_cases ha : p.active = true
      · simp_all [Portal.init, Portal.clear]
      · cases hsp : p.spawned <;> simp_all [Portal.init, Portal.clear]
    · rw [hs1] at hs
      injection hs with hq _
      subst hq
      simp [Portal.flagsConsistent, Portal.clear]
    · rw [hs1] at hs
      injection hs with hq _
      subst hq
      simp [Portal.flagsConsistent, hact]
  · unfold Portal.flagsConsistent getPlayerSpawnPos at *
    by_cases hc : (p.isActive && !p.spawned) = true
    · simp only [hc, if_true]
      simp only [Bool.and_eq_true, Portal.isActive] at hc
      exact ⟨fun _ => hc.1, fun hf => by cases hf⟩
    · simp only [hc]
      exact hp
  · unfold Portal.flagsConsistent playerUpdate at *
    by_cases hc : (p.locked && p.spawned) = true
    · by_cases ht : h.bz_getCurrentTime - p.lockTime
          > h.bz_getBZDBDouble "_dimensionDoorCooldownTime"
      · simp [hc, ht, Portal.clear]
      · simp only [hc, ht, if_true, if_false]
        exact hp
    · simp only [hc]
      exact hp

theorem runEvents_join_cons (h0 : Host) (k : ℤ) (evs : List (Host × EventData))
    (m0 : PortalMap) :
    runEvents ((h0, .bz_ePlayerJoinEvent k) :: evs) m0
      = runEvents evs (PortalMap.set m0 k (some (Portal.new h0.freshMemory))) := by
  simp [runEvents, Event]

theorem runEvents_cons_ok (h : Host) (e : EventData) (rest : List (Host × EventData))
    (m m1 : PortalMap) (d : EventData) (calls : List HostCall)
    (hev : Event h e m = .ok m1 d calls) :
    runEvents ((h, e) :: rest) m = runEvents rest m1 := by
  simp only [runEvents, hev]

theorem demoSession_result :
    ∃ m, runEvents demoSession PortalMap.empty = some m ∧ m 7 = some (some sessionPortal) := by
  have hrec : demoHost.bz_getPlayerByIndex 7 = some demoRecord := by simp [demoHost]
  have hrec1 : (demoHost.atTime 1).bz_getPlayerByIndex 7 = some demoRecord := by
    simp [demoHost, Host.atTime]
  unfold demoSession
  rw [runEvents_join_cons]
  rw [runEvents_cons_ok _ _ _ _ _ _ _
    (Event_shot_done demoHost _ 7 demoRecord (Portal.new demoHost.freshMemory) _ _ hrec rfl
      (PortalMap.set_same _ _ _)
      (shotFired_launch demoHost 7 demoRecord (Portal.new demoHost.freshMemory) (Or.inl rfl)))]
  rw [runEvents_join_cons]
  rw [runEvents_cons_ok _ _ _ _ _ _ _
    (Event_shot_done (demoHost.atTime 1) _ 7 demoRecord
      (Portal.init demoHost (launchPos demoHost demoRecord) (launchVel demoHost demoRecord)
        (if (Portal.new demoHost.freshMemory).active = true then
          (Portal.new demoHost.freshMemory).clear else Portal.new demoHost.freshMemory)) _ _
      hrec1 rfl (by simp [PortalMap.set])
      (shotFired_inside (demoHost.atTime 1) 7 demoRecord _ hrec1 rfl
        (by simp [Portal.isExpired, Portal.calculatePosition, Portal.init, launchPos, launchVel,
              Host.atTime, demoHost, demoRecord]
            norm_num)
        (by simp [Portal.calculatePosition, Portal.init, launchPos, launchVel,
              Host.atTime, demoHost, demoRecord]
            norm_num)))]
  rw [runEvents_cons_ok _ _ _ _ _ _ _
    (Event_spawn_of_entry (demoHost.atTime 1) _ 7 ⟨0, 0, 0⟩ 0 _ (PortalMap.set_same _ _ _))]
  refine ⟨_, rfl, ?_⟩
  simp [PortalMap.erase, PortalMap.index, PortalMap.set, getPlayerSpawnPos, Portal.isActive,
    Portal.getLockedPos, Portal.getLockedRot, Portal.calculatePosition, Portal.init,
    launchPos, launchVel, Host.atTime, demoHost, demoRecord, freshPortal, Portal.new,
    sessionPortal]
  norm_num

/-! ## Lemmas about the non-finite vertical component -/

theorem calculatePosition_toF (h : Host) (p : Portal) :
    p.toF.calculatePosition h = (p.calculatePosition h).toF := rfl

theorem isExpired_toF (h : Host) (p : Portal) : p.toF.isExpired h = p.isExpired h := by
  unfold PortalF.isExpired Portal.isExpired
  rw [calculatePosition_toF]
  simp [Vec3.toF, Flt.leZero, Portal.toF]

theorem launchVelF_of_nonzero (h : Host) (playerRecord : PlayerRecord)
    (hdiv : h.bz_getBZDBBool "_dimensionDoorVerticalVelocity" = true →
      h.bz_getBZDBDouble "_shotSpeed" ≠ 0) :
    launchVelF h playerRecord = (launchVel h playerRecord).toF := by
  cases ht : h.bz_getBZDBBool "_dimensionDoorVerticalVelocity"
  · simp [launchVelF, launchVel, Vec3.toF, ht]
  · simp [launchVelF, launchVel, Vec3.toF, ht, Flt.quot, hdiv ht]

theorem lock_toF (h : Host) (k : ℤ) (p : Portal) :
    p.toF.lock h k = (p.lock h k).map Portal.toF := by
  cases hrec : h.bz_getPlayerByIndex k with
  | none => simp [PortalF.lock, Portal.lock, hrec]
  | some playerRecord =>
    simp only [PortalF.lock, Portal.lock, hrec, Option.map_some', calculatePosition_toF]
    rfl

theorem shotFired_portal_inside (h : Host) (k : ℤ) (playerRecord : PlayerRecord) (p : Portal)
    (hact : p.active = true) (hexp : p.isExpired h = false)
    (hin : h.bz_isWithinWorldBoundaries (p.calculatePosition h) = true) :
    (shotFired h k playerRecord p).portal = p.lock h k := by
  have hin1 : h.bz_isWithinWorldBoundaries
      ⟨(p.calculatePosition h).x, (p.calculatePosition h).y, (p.calculatePosition h).z⟩
      = true := hin
  cases hl : p.lock h k <;>
    simp [shotFired, Portal.isActive, hact, hexp, hin1, hl, ShotResult.portal]

theorem shotFiredF_toF (W : Vec3F → Bool) (h : Host) (k : ℤ) (playerRecord : PlayerRecord)
    (p : Portal)
    (hW : ∀ v : Vec3, W v.toF = h.bz_isWithinWorldBoundaries v)
    (hdiv : h.bz_getBZDBBool "_dimensionDoorVerticalVelocity" = true →
      h.bz_getBZDBDouble "_shotSpeed" ≠ 0) :
    shotFiredF W h k playerRecord p.toF
      = (shotFired h k playerRecord p).portal.map Portal.toF := by
  have hvel := launchVelF_of_nonzero h playerRecord hdiv
  have hWc : W ⟨(p.toF.calculatePosition h).x, (p.toF.calculatePosition h).y,
      (p.toF.calculatePosition h).z⟩ = h.bz_isWithinWorldBoundaries (p.calculatePosition h) := by
    rw [← hW]
    rfl
  rcases Bool.eq_false_or_eq_true p.active with hact | hact
  · have hactF : p.toF.active = true := hact
    rcases Bool.eq_false_or_eq_true (p.isExpired h) with hexp | hexp
    · have hexpF : p.toF.isExpired h = true := by rw [isExpired_toF]; exact hexp
      have hF : shotFiredF W h k playerRecord p.toF
          = some (PortalF.init h (launchPos h playerRecord) (launchVelF h playerRecord)
              p.toF.clear) := by
        simp [shotFiredF, hactF, hexpF, PortalF.clear]
      rw [hF, hvel, shotFired_launch h k playerRecord p (Or.inr hexp), if_pos hact]
      rfl
    · have hexpF : p.toF.isExpired h = false := by rw [isExpired_toF]; exact hexp
      rcases Bool.eq_false_or_eq_true
          (h.bz_isWithinWorldBoundaries (p.calculatePosition h)) with hin | hin
      · rw [shotFired_portal_inside h k playerRecord p hact hexp hin, ← lock_toF]
        rw [hin] at hWc
        simp [shotFiredF, hactF, hexpF, hWc]
      · rw [hin] at hWc
        have hF : shotFiredF W h k playerRecord p.toF = some p.toF.clear := by
          simp [shotFiredF, hactF, hexpF, hWc]
        rw [hF, shotFired_outside h k playerRecord p hact hexp hin]
        rfl
  · have hactF : p.toF.active = false := hact
    have hF : shotFiredF W h k playerRecord p.toF
        = some (PortalF.init h (launchPos h playerRecord) (launchVelF h playerRecord)
            p.toF) := by
      simp [shotFiredF, hactF]
    have hne : ¬ (p.active = true) := by simp [hact]
    rw [hF, hvel, shotFired_launch h k playerRecord p (Or.inl hact), if_neg hne]
    rfl

/-- C14. For every sequence of events that respects the ordering the server promises
(a join comes for a player who is not connected, every other event of a player
for one who is), starting from the empty registry, after each event (after the
first `n`, for every `n`) no handler has dereferenced a null pointer and the
player ids that have a Portal in the registry are the connected players: a
connected player has an entry that points to a Portal, any other id has no
entry.  The Portal a join inserts is idle (`active = false`, `locked = false`,
`spawned = true`), and after a part of `k` there is no entry for `k`. -/
theorem registry_pairing (evs : List (Host × EventData))
    (hord : respectsOrdering (fun _ => false) evs = true) (n : ℕ) :
    (∃ m, runEvents (evs.take n) PortalMap.empty = some m ∧
      ∀ k, (connectedAfterAll (fun _ => false) (evs.take n) k = true →
              ∃ p, m k = some (some p)) ∧
           (connectedAfterAll (fun _ => false) (evs.take n) k = false → m k = none)) ∧
    (∀ (h : Host) (m : PortalMap) (k : ℤ), ∃ p,
      (Event h (.bz_ePlayerJoinEvent k) m).portalMap k = some (some p) ∧
        p.active = false ∧ p.locked = false ∧ p.spawned = true) ∧
    (∀ (h : Host) (m : PortalMap) (k : ℤ),
      (Event h (.bz_ePlayerPartEvent k) m).portalMap k = none) := by
  refine ⟨?_, ?_, ?_⟩
  · obtain ⟨m, hrun, hmatch⟩ := runEvents_respects (evs.take n) (fun _ => false)
      PortalMap.empty registryMatches_empty
      (respectsOrdering_take evs (fun _ => false) n hord)
    exact ⟨m, hrun, hmatch⟩
  · intro h m k
    refine ⟨Portal.new h.freshMemory, ?_, rfl, rfl, rfl⟩
    simp [Event, Outcome.portalMap, PortalMap.set]
  · intro h m k
    simp [Event, Outcome.portalMap, PortalMap.erase]

/-- Witness of C14: after the six events of `demoSession` player `7` has a Portal and
player `8`, who joined and parted, has no entry. -/
theorem registry_pairing_witness :
    respectsOrdering (fun _ => false) demoSession = true ∧
      ∃ m, runEvents demoSession PortalMap.empty = some m ∧
        (∃ p, m 7 = some (some p)) ∧ m 8 = none := by
  have hord : respectsOrdering (fun _ => false) demoSession = true := by
    simp [respectsOrdering, respectsOrderingAt, connectedAfter, demoSession]
  obtain ⟨⟨m, hrun, hmatch⟩, _⟩ := registry_pairing demoSession hord 6
  have htake : List.take 6 demoSession = demoSession := by simp [demoSession]
  rw [htake] at hrun hmatch
  refine ⟨hord, m, hrun, (hmatch 7).1 ?_, (hmatch 8).2 ?_⟩
  · simp [connectedAfterAll, connectedAfter, demoSession]
  · simp [connectedAfterAll, connectedAfter, demoSession]

/-- C17. Take the registry at any point after a join of player `k`, whatever events
were handled since (fires, qualifying or not, spawn-position requests, ticks,
events of other players, further parts and joins), none of them ending in a
null dereference.  The Portal `q` of player `k`, if there is one, has `locked`
only with `active` and `spawned = false` only with `locked`; so it is in exactly
one of the four states Idle, Flying, Locked-Pending-Spawn, Locked-Cooldown. -/
theorem reachable_state_invariant (h0 : Host) (evs : List (Host × EventData))
    (m0 m : PortalMap) (k : ℤ) (q : Portal)
    (hrun : runEvents ((h0, .bz_ePlayerJoinEvent k) :: evs) m0 = some m)
    (hq : m k = some (some q)) :
    (q.locked = true → q.active = true) ∧ (q.spawned = false → q.locked = true) ∧
      List.count true
        [q.isIdle, q.isFlying, q.isLockedPendingSpawn, q.isLockedCooldown] = 1 := by
  rw [runEvents_join_cons] at hrun
  have hflags : q.flagsConsistent :=
    runEvents_entry_invariant Portal.flagsConsistent (fun _ => True) k flagsConsistent_new
      (fun h p q1 _ hp hst => flagsConsistent_step h k p q1 hp hst) evs
      (PortalMap.set m0 k (some (Portal.new h0.freshMemory))) m (fun _ _ => trivial)
      (fun p hp => by
        rw [PortalMap.set_same] at hp
        have hpp : Portal.new h0.freshMemory = p := by simpa using hp
        rw [← hpp]
        exact flagsConsistent_new _)
      hrun q hq
  refine ⟨hflags.1, hflags.2, ?_⟩
  unfold Portal.flagsConsistent at hflags
  cases ha : q.active <;> cases hl : q.locked <;> cases hs : q.spawned <;>
    simp_all [Portal.isIdle, Portal.isFlying, Portal.isLockedPendingSpawn,
      Portal.isLockedCooldown]

/-- Witness of C17: the Portal of player `7` at the end of `demoSession` is
`sessionPortal`, in state Locked-Cooldown. -/
theorem reachable_state_invariant_witness :
    sessionPortal.isLockedCooldown = true ∧
      List.count true
        [sessionPortal.isIdle, sessionPortal.isFlying, sessionPortal.isLockedPendingSpawn,
          sessionPortal.isLockedCooldown] = 1 := by
  obtain ⟨m, hrun, hq⟩ := demoSession_result
  exact ⟨rfl, (reachable_state_invariant demoHost _ PortalMap.empty m 7 sessionPortal
    hrun hq).2.2⟩

end DimensionDoor
